import Mathlib

/-!
Shallow embedding of the reposystem core (graph + slot-binding + plan-apply
engine) and verification of its specification claims.

Conventions of the embedding:
* Rust `String` becomes `String`; `Option<T>` becomes `Option T`; `Vec<T>`
  becomes `List T` (order-preserving, like the source's vectors).
* Rust `i32` counters that can never overflow at realistic sizes
  (`priority`, risk scores) become `Int`.
* `DateTime<Utc>` timestamps become `Nat` (a Unix-second clock value); every
  function that calls `Utc::now()` in the source takes an explicit `now : Nat`
  argument.  Reads of the `USER` environment variable become an explicit
  `envUser : Option String` argument.
* `&mut` mutation becomes explicit state passing: a function that mutates the
  in-memory `EcosystemGraph` and returns `Result<T>` becomes a function that
  returns the error (if any) together with the updated graph — mutations done
  before the error are kept, exactly as in the Rust source.
* Console output is dropped; where the executed-operation trace is an
  observable (each operation is printed before execution), the trace is
  returned explicitly.
* File I/O in `EcosystemGraph::save` is modelled as a trace of file-system
  commands (`FsOp`), parameterised by the serialisation functions.
-/

namespace Reposystem

/-- Single-quote character as a string, used to reproduce the Rust error
message `Missing capability: provider lacks required '<cap>'`. -/
def sq : String := String.singleton (Char.ofNat 39)

/-- Rendering of Rust `format!("{:?}", x)` for an `Option<String>`, as used in
the compatibility / version-mismatch error messages.  (None of the strings in
this development need escaping beyond plain quoting.) -/
def rustDebugOptStr : Option String → String
  | none => "None"
  | some s => "Some(" ++ "\"" ++ s ++ "\"" ++ ")"

/-- Rendering of Rust `format!("{:?}", v)` for a `Vec<String>`. -/
def rustDebugListStr (l : List String) : String :=
  "[" ++ String.intercalate ", " (l.map (fun s => "\"" ++ s ++ "\"")) ++ "]"

/-- Splitting a character list at every occurrence of `sep`, the semantics of
Rust `str::split(char)` (and of `String.splitOn` for a one-character
separator); written by structural recursion so that it reduces inside the
kernel. -/
def splitChar (sep : Char) : List Char → List (List Char)
  | [] => [[]]
  | c :: cs =>
    if c = sep then [] :: splitChar sep cs
    else
      match splitChar sep cs with
      | [] => [[c]]
      | h :: t => (c :: h) :: t

/-- Replacement of every (non-overlapping, left-to-right) occurrence of `pat`
by `rep`, the semantics of Rust `str::replace` for a non-empty pattern (every
pattern in this development is non-empty); the explicit fuel — always at
least the input length — makes the recursion structural so that it reduces
inside the kernel. -/
def replaceFuel (pat rep : List Char) : Nat → List Char → List Char
  | _, [] => []
  | 0, l => l
  | fuel + 1, c :: cs =>
    if pat.isPrefixOf (c :: cs) then rep ++ replaceFuel pat rep fuel ((c :: cs).drop pat.length)
    else c :: replaceFuel pat rep fuel cs

/-- Rust `s.replace(pat, rep)` (non-empty `pat`). -/
def rustReplace (s pat rep : String) : String :=
  String.mk (replaceFuel pat.data rep.data s.data.length s.data)

/-- Rust `s.starts_with(pre)` (the semantics of `String.startsWith`). -/
def rustStartsWith (s pre : String) : Bool :=
  pre.data.isPrefixOf s.data

/-- Rust `s.split(':').last().unwrap_or(default)`, as used by
`execute_operation` and `reverse_operation` in `src/commands/apply.rs` to
shorten entity ids. -/
def lastColonSegment (s : String) (default : String) : String :=
  ((((splitChar ':' s.data).map (fun l => String.mk l)).getLast?).getD default)

/-- Replace the first element satisfying `pred` (Rust
`iter_mut().find(pred)` followed by a field assignment). -/
def updateFirst (pred : α → Bool) (f : α → α) : List α → List α
  | [] => []
  | x :: xs => if pred x then f x :: xs else x :: updateFirst pred f xs

-- ===========================================================================
-- Data model (src/src/lib.rs, module `types`)
-- ===========================================================================

/-- Git forges (`types::Forge`). -/
inductive Forge where
  | GitHub | GitLab | Bitbucket | Codeberg | Sourcehut | Local
deriving DecidableEq, Inhabited

/-- Repository visibility (`types::Visibility`). -/
inductive Visibility where
  | Public | Private | Internal
deriving DecidableEq, Inhabited

/-- Import metadata (`types::ImportMeta`); `path_hint : PathBuf` is carried as
a string, `imported_at` as a `Nat` timestamp. -/
structure ImportMeta where
  source : String
  path_hint : Option String
  imported_at : Nat
deriving DecidableEq, Inhabited

/-- Repository node (`types::Repo`); `local_path` is runtime-only in the
source (`#[serde(skip)]`) and carried as a plain option here. -/
structure Repo where
  kind : String
  id : String
  forge : Forge
  owner : String
  name : String
  default_branch : String
  visibility : Visibility
  tags : List String
  imports : ImportMeta
  local_path : Option String
deriving DecidableEq, Inhabited

/-- Logical component (`types::Component`). -/
structure Component where
  kind : String
  id : String
  repo_id : String
  name : String
  component_type : String
  version : Option String
  interfaces : List String
deriving DecidableEq, Inhabited

/-- Group of repositories (`types::Group`). -/
structure Group where
  kind : String
  id : String
  name : String
  description : Option String
  members : List String
deriving DecidableEq, Inhabited

/-- Evidence (`types::Evidence`); `confidence : f64` becomes `Float` (no claim
computes with it). -/
structure Evidence where
  evidence_type : String
  reference : String
  excerpt : Option String
  confidence : Float
deriving Inhabited

/-- Edge metadata (`types::EdgeMeta`). -/
structure EdgeMeta where
  created_by : String
  created_at : Nat
deriving DecidableEq, Inhabited

/-- Relationship channel (`types::Channel`). -/
inductive Channel where
  | Api | Artifact | Config | Runtime | Human | Unknown
deriving DecidableEq, Inhabited

/-- Relationship type (`types::RelationType`). -/
inductive RelationType where
  | Uses | Provides | Extends | Mirrors | Replaces
deriving DecidableEq, Inhabited

/-- Edge between repositories (`types::Edge`); `from` is a Lean keyword, so
the field keeps the source meaning under the name `from_id` (and `to` becomes
`to_id` for symmetry). -/
structure Edge where
  kind : String
  id : String
  from_id : String
  to_id : String
  rel : RelationType
  channel : Channel
  label : Option String
  evidence : List Evidence
  meta : EdgeMeta
deriving Inhabited

/-- Aspect definition (`types::Aspect`). -/
structure Aspect where
  kind : String
  id : String
  name : String
  description : String
deriving DecidableEq, Inhabited

/-- Annotation provenance (`types::AnnotationSource`). -/
structure AnnotationSource where
  mode : String
  who : String
  when_ : Nat
  rule_id : Option String
deriving DecidableEq, Inhabited

/-- Polarity of an annotation (`types::Polarity`). -/
inductive Polarity where
  | Risk | Strength | Neutral
deriving DecidableEq, Inhabited

/-- Aspect annotation (`types::AspectAnnotation`); `weight : u8` becomes
`Nat`. -/
structure AspectAnnotation where
  kind : String
  id : String
  target : String
  aspect_id : String
  weight : Nat
  polarity : Polarity
  reason : String
  evidence : List Evidence
  source : AnnotationSource
deriving Inhabited

/-- Scenario (`types::Scenario`). -/
structure Scenario where
  kind : String
  id : String
  name : String
  base : Option String
  description : Option String
  created_at : Nat
deriving DecidableEq, Inhabited

/-- Change-set operation (`types::ChangeOp`). -/
inductive ChangeOp where
  | AddEdge (edge : Edge)
  | RemoveEdge (edge_id : String)
  | AddAnnotation (a : AspectAnnotation)
  | RemoveAnnotation (annotation_id : String)
  | SetGroupMembership (group_id : String) (members : List String)
deriving Inhabited

/-- Change set for a scenario (`types::ChangeSet`). -/
structure ChangeSet where
  kind : String
  scenario_id : String
  ops : List ChangeOp
deriving Inhabited

/-- Swappable capability slot (`types::Slot`). -/
structure Slot where
  kind : String
  id : String
  name : String
  category : String
  description : String
  interface_version : Option String
  required_capabilities : List String
deriving DecidableEq, Inhabited

/-- Provider type classification (`types::ProviderType`). -/
inductive ProviderType where
  | Local | Ecosystem | External | Stub
deriving DecidableEq, Inhabited

/-- Provider of a slot (`types::Provider`); `priority : i32` becomes `Int`. -/
structure Provider where
  kind : String
  id : String
  name : String
  slot_id : String
  provider_type : ProviderType
  repo_id : Option String
  external_uri : Option String
  interface_version : Option String
  capabilities : List String
  priority : Int
  is_fallback : Bool
deriving DecidableEq, Inhabited

/-- Binding mode (`types::BindingMode`). -/
inductive BindingMode where
  | Manual | Auto | Scenario | Default
deriving DecidableEq, Inhabited

/-- Slot binding (`types::SlotBinding`). -/
structure SlotBinding where
  kind : String
  id : String
  consumer_id : String
  slot_id : String
  provider_id : String
  mode : BindingMode
  created_at : Nat
  created_by : String
deriving DecidableEq, Inhabited

/-- `SlotBinding::generate_id` (src/src/lib.rs:600-608): the documented
deterministic binding id `binding:<consumer-short>:<slot-short>`. -/
def SlotBinding.generate_id (consumer_id slot_id : String) : String :=
  let consumer_short := rustReplace (rustReplace (rustReplace consumer_id "repo:" "") "/" "-") ":" "-"
  let slot_short := rustReplace slot_id "slot:" ""
  "binding:" ++ consumer_short ++ ":" ++ slot_short

/-- Compatibility verdict (`types::CompatibilityResult`). -/
structure CompatibilityResult where
  compatible : Bool
  version_match : Bool
  capabilities_satisfied : List String
  capabilities_missing : List String
  reason : String
deriving DecidableEq, Inhabited

/-- Slot registry store (`types::SlotStore`). -/
structure SlotStore where
  slots : List Slot
  providers : List Provider
  bindings : List SlotBinding
deriving DecidableEq, Inhabited

/-- `SlotStore::check_compatibility` (src/src/lib.rs:682-751): the §4.4
compatibility oracle. -/
def SlotStore.check_compatibility (st : SlotStore) (slot_id provider_id : String) : CompatibilityResult :=
  match st.slots.find? (fun s => s.id == slot_id), st.providers.find? (fun p => p.id == provider_id) with
  | some slot, some provider =>
    if provider.slot_id ≠ slot_id then
      { compatible := false
        version_match := false
        capabilities_satisfied := []
        capabilities_missing := slot.required_capabilities
        reason := "Provider " ++ provider_id ++ " is for slot " ++ provider.slot_id ++ ", not " ++ slot_id }
    else
      let version_match :=
        match slot.interface_version, provider.interface_version with
        | some sv, some pv => sv == pv
        | none, _ => true
        | _, none => true
      let caps_satisfied := slot.required_capabilities.filter (fun c => provider.capabilities.contains c)
      let caps_missing := slot.required_capabilities.filter (fun c => !(provider.capabilities.contains c))
      let compatible := version_match && caps_missing.isEmpty
      let reason :=
        if compatible then "Compatible"
        else if !version_match then
          "Version mismatch: slot requires " ++ rustDebugOptStr slot.interface_version
            ++ ", provider offers " ++ rustDebugOptStr provider.interface_version
        else "Missing capabilities: " ++ rustDebugListStr caps_missing
      { compatible := compatible
        version_match := version_match
        capabilities_satisfied := caps_satisfied
        capabilities_missing := caps_missing
        reason := reason }
  | none, _ =>
    { compatible := false, version_match := false, capabilities_satisfied := []
      capabilities_missing := [], reason := "Slot not found: " ++ slot_id }
  | some _, none =>
    { compatible := false, version_match := false, capabilities_satisfied := []
      capabilities_missing := [], reason := "Provider not found: " ++ provider_id }

-- ===========================================================================
-- Specification-side definitions for the §4.4 oracle (claim C5 / C1)
-- ===========================================================================

/-- Spec §4.4 rule 3, stated from the spec's words: `version_match` is true
unless both sides declare an interface version and they differ by exact
string equality. -/
def specVersionMatch (sv pv : Option String) : Bool :=
  !(sv.isSome && pv.isSome && sv ≠ pv)

/-- Spec §4.4 rule 4, stated from the spec's words:
`capabilities_missing = slot.required_capabilities \ provider.capabilities`. -/
def specCapabilitiesMissing (slot : Slot) (provider : Provider) : List String :=
  slot.required_capabilities.filter (fun c => c ∉ provider.capabilities)

-- ===========================================================================
-- Plans and audit (src/src/lib.rs `types`; the audit structures are not in
-- the provided snapshot of lib.rs and are reconstructed field-for-field from
-- their construction sites in src/src/commands/apply.rs)
-- ===========================================================================

/-- Risk level (`types::RiskLevel`). -/
inductive RiskLevel where
  | Low | Medium | High | Critical
deriving DecidableEq, Inhabited

/-- Type of file change (`types::FileChangeType`). -/
inductive FileChangeType where
  | Create | Modify | Delete
deriving DecidableEq, Inhabited

/-- Diff for a single file (`types::FileDiff`). -/
structure FileDiff where
  repo_id : String
  file_path : String
  change_type : FileChangeType
  diff : String
  lines_added : Nat
  lines_removed : Nat
deriving DecidableEq, Inhabited

/-- Plan operation (`types::PlanOp`). -/
inductive PlanOp where
  | SwitchBinding (binding_id consumer_id slot_id from_provider_id to_provider_id : String)
      (risk : RiskLevel) (reason : String)
  | CreateBinding (consumer_id slot_id provider_id : String) (risk : RiskLevel) (reason : String)
  | RemoveBinding (binding_id consumer_id slot_id provider_id : String)
      (risk : RiskLevel) (reason : String)
  | FileChange (repo_id file_path : String) (change_type : FileChangeType)
      (diff : Option String) (risk : RiskLevel)
deriving DecidableEq, Inhabited

/-- Plan status (`types::PlanStatus`). -/
inductive PlanStatus where
  | Draft | Ready | Applied | RolledBack | Cancelled
deriving DecidableEq, Inhabited

/-- Plan (`types::Plan`). -/
structure Plan where
  kind : String
  id : String
  name : String
  scenario_id : String
  description : Option String
  operations : List PlanOp
  overall_risk : RiskLevel
  status : PlanStatus
  created_at : Nat
  created_by : String
  applied_at : Option Nat
  rollback_plan_id : Option String
deriving DecidableEq, Inhabited

/-- Diff summary (`types::PlanDiff`). -/
structure PlanDiff where
  plan_id : String
  bindings_changed : Nat
  bindings_created : Nat
  bindings_removed : Nat
  files_affected : Nat
  file_diffs : List FileDiff
deriving DecidableEq, Inhabited

/-- Plan store (`types::PlanStore`). -/
structure PlanStore where
  plans : List Plan
  diffs : List PlanDiff
deriving DecidableEq, Inhabited

/-- Result of an apply run (`types::ApplyResult`, reconstructed from its uses
in src/src/commands/apply.rs). -/
inductive ApplyResult where
  | Success | PartialFailure | Failure | RolledBack
deriving DecidableEq, Inhabited

/-- Per-operation result (`types::OpResult`, reconstructed from its
construction in src/src/commands/apply.rs:91-96). -/
structure OpResult where
  op_index : Nat
  success : Bool
  error : Option String
  executed_at : Nat
deriving DecidableEq, Inhabited

/-- Audit entry (`types::AuditEntry`, reconstructed from its construction in
src/src/commands/apply.rs:145-158 and 283-296). -/
structure AuditEntry where
  kind : String
  id : String
  plan_id : String
  result : ApplyResult
  op_results : List OpResult
  started_at : Nat
  finished_at : Nat
  applied_by : String
  auto_rollback_triggered : Bool
  rollback_plan_id : Option String
  health_check_passed : Option Bool
  notes : List String
deriving DecidableEq, Inhabited

/-- Audit store (reconstructed from `graph.audit.entries` usage in
src/src/commands/apply.rs). -/
structure AuditStore where
  entries : List AuditEntry
deriving DecidableEq, Inhabited

/-- Graph store (`types::GraphStore`). -/
structure GraphStore where
  repos : List Repo
  components : List Component
  groups : List Group
  edges : List Edge
  scenarios : List Scenario
  changesets : List ChangeSet
deriving Inhabited

/-- Aspect store (`types::AspectStore`). -/
structure AspectStore where
  aspects : List Aspect
  annotations : List AspectAnnotation
deriving Inhabited

/-- The ecosystem graph (`graph::EcosystemGraph`).  The provided snapshot of
graph.rs declares only `store` and `aspects`; the `slots`, `plans` and
`audit` store fields are reconstructed from their pervasive use in
src/src/commands/{apply,plan,slot}.rs (`graph.slots.bindings`,
`graph.plans.plans`, `graph.audit.entries`, ...).  The petgraph adjacency
index is a derived cache rebuilt from the store and is not modelled. -/
structure EcosystemGraph where
  store : GraphStore
  aspects : AspectStore
  slots : SlotStore
  plans : PlanStore
  audit : AuditStore
deriving Inhabited

-- ===========================================================================
-- Transactional executor (src/src/commands/apply.rs)
-- ===========================================================================

/-- Apply command arguments (`apply::ApplyArgs`). -/
structure ApplyArgs where
  dry_run : Bool
  auto_rollback : Bool
  skip_health_check : Bool
deriving DecidableEq, Inhabited

/-- `execute_operation` (src/src/commands/apply.rs:387-525).  Returns the
error (if the operation failed) together with the updated graph; note that a
failed `SwitchBinding` keeps the binding removal it performed before the
failing check, exactly as in the source, where the graph is mutated through
`&mut` before the early `return Err`. -/
def execute_operation (envUser : Option String) (now : Nat) (g : EcosystemGraph) (op : PlanOp) :
    Option String × EcosystemGraph :=
  match op with
  | .SwitchBinding binding_id consumer_id slot_id _from_provider_id to_provider_id _ _ =>
    -- Remove old binding: first by id, then (if nothing was removed) by (slot, consumer)
    let initial_len := g.slots.bindings.length
    let bs1 := g.slots.bindings.filter (fun b => b.id ≠ binding_id)
    let bs2 :=
      if bs1.length = initial_len then
        bs1.filter (fun b => !(b.slot_id == slot_id && b.consumer_id == consumer_id))
      else bs1
    let g' : EcosystemGraph := { g with slots := { g.slots with bindings := bs2 } }
    match g'.slots.providers.find? (fun p => p.id == to_provider_id) with
    | none => (some ("Provider not found: " ++ to_provider_id), g')
    | some provider =>
      match g'.slots.slots.find? (fun s => s.id == slot_id) with
      | none => (some ("Slot not found: " ++ slot_id), g')
      | some slot =>
        if slot.interface_version ≠ provider.interface_version then
          (some ("Version mismatch: slot requires " ++ rustDebugOptStr slot.interface_version
              ++ ", provider has " ++ rustDebugOptStr provider.interface_version), g')
        else
          match slot.required_capabilities.find? (fun cap => !(provider.capabilities.contains cap)) with
          | some cap =>
            (some ("Missing capability: provider lacks required " ++ sq ++ cap ++ sq), g')
          | none =>
            let new_binding : SlotBinding :=
              { kind := "SlotBinding"
                id := "binding:" ++ lastColonSegment slot_id "slot"
                  ++ ":" ++ lastColonSegment consumer_id "consumer"
                  ++ ":" ++ lastColonSegment to_provider_id "provider"
                consumer_id := consumer_id
                slot_id := slot_id
                provider_id := to_provider_id
                mode := BindingMode.Manual
                created_at := now
                created_by := envUser.getD "apply" }
            (none, { g' with slots := { g'.slots with bindings := bs2 ++ [new_binding] } })
  | .CreateBinding consumer_id slot_id provider_id _ _ =>
    if g.slots.bindings.any (fun b => b.slot_id == slot_id && b.consumer_id == consumer_id) then
      (some "Binding already exists for this slot/consumer", g)
    else
      let binding : SlotBinding :=
        { kind := "SlotBinding"
          id := "binding:" ++ lastColonSegment slot_id "slot"
            ++ ":" ++ lastColonSegment consumer_id "consumer"
            ++ ":" ++ lastColonSegment provider_id "provider"
          consumer_id := consumer_id
          slot_id := slot_id
          provider_id := provider_id
          mode := BindingMode.Manual
          created_at := now
          created_by := envUser.getD "apply" }
      (none, { g with slots := { g.slots with bindings := g.slots.bindings ++ [binding] } })
  | .RemoveBinding binding_id consumer_id slot_id _ _ _ =>
    let initial_len := g.slots.bindings.length
    let bs1 := g.slots.bindings.filter (fun b => b.id ≠ binding_id)
    let bs2 :=
      if bs1.length = initial_len then
        bs1.filter (fun b => !(b.slot_id == slot_id && b.consumer_id == consumer_id))
      else bs1
    if bs2.length = initial_len then
      (some "Binding not found", { g with slots := { g.slots with bindings := bs2 } })
    else
      (none, { g with slots := { g.slots with bindings := bs2 } })
  | .FileChange _ _ _ _ _ =>
    -- File changes are recorded but not executed (printed only)
    (none, g)

/-- `reverse_operation` (src/src/commands/apply.rs:528-585). -/
def reverse_operation : PlanOp → Option PlanOp
  | .SwitchBinding binding_id consumer_id slot_id from_provider_id to_provider_id risk reason =>
    some (.SwitchBinding binding_id consumer_id slot_id to_provider_id from_provider_id risk
      ("Rollback: " ++ reason))
  | .CreateBinding consumer_id slot_id provider_id risk reason =>
    some (.RemoveBinding
      ("binding:" ++ lastColonSegment slot_id "slot"
        ++ ":" ++ lastColonSegment consumer_id "consumer"
        ++ ":" ++ lastColonSegment provider_id "provider")
      consumer_id slot_id provider_id risk ("Rollback: " ++ reason))
  | .RemoveBinding _ consumer_id slot_id provider_id risk reason =>
    some (.CreateBinding consumer_id slot_id provider_id risk ("Rollback: " ++ reason))
  | .FileChange _ _ _ _ _ => none

/-- The compensating-operation list built by `execute_rollback`
(src/src/commands/apply.rs:589-593): `plan.operations[..=up_to_index]`
reversed and mapped through `reverse_operation`.  Note the inclusive slice:
the operation at `up_to_index` (the failed one) is included. -/
def rollback_ops_of (operations : List PlanOp) (up_to_index : Nat) : List PlanOp :=
  ((operations.take (up_to_index + 1)).reverse).filterMap reverse_operation

/-- The operation loop of `execute_rollback` (src/src/commands/apply.rs:
600-607): execute each compensating op; stop at the first failure.  Returns
the trace of operations attempted (each is announced before execution in the
source), the first failure (index and message) if any, and the final graph. -/
def exec_rollback_loop (envUser : Option String) (now : Nat) :
    EcosystemGraph → List PlanOp → Nat → List PlanOp × Option (Nat × String) × EcosystemGraph
  | g, [], _ => ([], none, g)
  | g, op :: rest, i =>
    match execute_operation envUser now g op with
    | (none, g') =>
      let (tr, res, g'') := exec_rollback_loop envUser now g' rest (i + 1)
      (op :: tr, res, g'')
    | (some e, g') => ([op], some (i, e), g')

/-- `execute_rollback` (src/src/commands/apply.rs:588-610). -/
def execute_rollback (envUser : Option String) (now : Nat) (g : EcosystemGraph)
    (plan : Plan) (up_to_index : Nat) :
    List PlanOp × Except String String × EcosystemGraph :=
  let ops := rollback_ops_of plan.operations up_to_index
  let rollback_id := "rollback:" ++ plan.id ++ ":" ++ toString now
  match exec_rollback_loop envUser now g ops 0 with
  | (tr, none, g') => (tr, Except.ok rollback_id, g')
  | (tr, some (i, e), g') =>
    (tr, Except.error ("Rollback failed at step " ++ toString (i + 1) ++ ": " ++ e), g')

/-- `run_health_check` (src/src/commands/apply.rs:613-651): a single `healthy`
flag threaded through two loops over the bindings (existence checks, then the
strict version-equality check). -/
def run_health_check (g : EcosystemGraph) : Bool :=
  let healthy := g.slots.bindings.foldl
    (fun h b =>
      let h1 := if !(g.slots.slots.any (fun s => s.id == b.slot_id)) then false else h
      if !(g.slots.providers.any (fun p => p.id == b.provider_id)) then false else h1)
    true
  g.slots.bindings.foldl
    (fun h b =>
      match g.slots.slots.find? (fun s => s.id == b.slot_id),
            g.slots.providers.find? (fun p => p.id == b.provider_id) with
      | some slot, some provider =>
        if slot.interface_version ≠ provider.interface_version then false else h
      | _, _ => h)
    healthy

/-- The main operation loop of `run_apply` (src/src/commands/apply.rs:84-110):
execute each operation in order, record an `OpResult` per operation; on a
failure, remember its index (a later failure overwrites it); with
auto-rollback enabled, stop at the first failure after pushing the
auto-rollback note. -/
def apply_ops (envUser : Option String) (now : Nat) (auto_rollback : Bool) :
    EcosystemGraph → List PlanOp → Nat →
    List OpResult × Option Nat × List String × EcosystemGraph
  | g, [], _ => ([], none, [], g)
  | g, op :: rest, i =>
    let (err, g') := execute_operation envUser now g op
    let r : OpResult := { op_index := i, success := err.isNone, error := err, executed_at := now }
    match err with
    | none =>
      let (rs, fi, ns, g'') := apply_ops envUser now auto_rollback g' rest (i + 1)
      (r :: rs, fi, ns, g'')
    | some _ =>
      if auto_rollback then
        ([r], some i,
          ["Auto-rollback triggered after operation " ++ toString (i + 1) ++ " failed"], g')
      else
        let (rs, fi, ns, g'') := apply_ops envUser now auto_rollback g' rest (i + 1)
        (r :: rs, some (fi.getD i), ns, g'')

/-- Observable outcome of a non-dry-run `run_apply`: the final graph (as
saved), plus projections of what is printed / audited. -/
structure ApplyOutcome where
  graph : EcosystemGraph
  result : ApplyResult
  op_results : List OpResult
  rollback_attempted : List PlanOp
  health_check_passed : Option Bool
deriving Inhabited

/-- Result of `run_apply`: either the dry-run path (prints the operations and
touches nothing) or an executed apply. -/
inductive ApplyRun where
  | dryRun (plan : Plan)
  | executed (out : ApplyOutcome)
deriving Inhabited

/-- The failure-handling phase of `run_apply`
(src/src/commands/apply.rs:115-131): from the failure index (if any) to the
rollback trace, the `ApplyResult`, the auto-rollback flag, the rollback plan
id, the extra notes, and the graph after the (possible) rollback. -/
def apply_phase2 (envUser : Option String) (now : Nat) (auto_rollback : Bool)
    (g1 : EcosystemGraph) (plan : Plan) (failure_index : Option Nat) :
    List PlanOp × ApplyResult × Bool × Option String × List String × EcosystemGraph :=
  match failure_index with
  | some k =>
    if auto_rollback then
      match execute_rollback envUser now g1 plan k with
      | (tr, Except.ok rid, g2) => (tr, ApplyResult.RolledBack, true, some rid, [], g2)
      | (tr, Except.error e, g2) =>
        (tr, ApplyResult.Failure, true, none, ["Rollback failed: " ++ e], g2)
    else ([], ApplyResult.PartialFailure, false, none, [], g1)
  | none => ([], ApplyResult.Success, false, none, [], g1)

/-- The normal (non-dry-run) body of `run_apply`
(src/src/commands/apply.rs:73-204) on a plan that was found and is not
already applied. -/
def run_apply_normal (envUser : Option String) (now : Nat) (g : EcosystemGraph)
    (plan : Plan) (args : ApplyArgs) : ApplyOutcome :=
  let (op_results, failure_index, notes0, g1) :=
    apply_ops envUser now args.auto_rollback g plan.operations 0
  let (rb_trace, result, auto_rollback_triggered, rollback_plan_id, rb_notes, g2) :=
    apply_phase2 envUser now args.auto_rollback g1 plan failure_index
  let health_check_passed :=
    if !args.skip_health_check && result = ApplyResult.Success then
      some (run_health_check g2)
    else none
  let hc_notes :=
    match health_check_passed with
    | some false => ["Health check failed - manual review recommended"]
    | _ => []
  let entry : AuditEntry :=
    { kind := "AuditEntry"
      id := "audit:" ++ plan.id ++ ":" ++ toString now
      plan_id := plan.id
      result := result
      op_results := op_results
      started_at := now
      finished_at := now
      applied_by := envUser.getD "unknown"
      auto_rollback_triggered := auto_rollback_triggered
      rollback_plan_id := rollback_plan_id
      health_check_passed := health_check_passed
      notes := notes0 ++ rb_notes ++ hc_notes }
  let g3 := { g2 with audit := { entries := g2.audit.entries ++ [entry] } }
  let new_status :=
    match result with
    | ApplyResult.Success => PlanStatus.Applied
    | ApplyResult.RolledBack => PlanStatus.Draft
    | _ => PlanStatus.Draft
  let applied_upd := fun (p : Plan) =>
    if result = ApplyResult.Success then some now else p.applied_at
  let planUpd := fun (p : Plan) =>
    { p with status := new_status, applied_at := applied_upd p }
  let g4 :=
    { g3 with plans :=
      { g3.plans with plans :=
        (updateFirst (fun p => p.id == plan.id) planUpd g3.plans.plans) } }
  { graph := g4
    result := result
    op_results := op_results
    rollback_attempted := rb_trace
    health_check_passed := health_check_passed }

/-- `run_apply` (src/src/commands/apply.rs:42-205), from the loaded graph to
the saved graph.  Loading and saving of the data directory are outside the
embedding; an `Except.error` is a path on which the source returns `Err`
before writing anything. -/
def run_apply (envUser : Option String) (now : Nat) (g : EcosystemGraph)
    (plan_name : Option String) (args : ApplyArgs) : Except String ApplyRun :=
  match plan_name with
  | none => .error "Plan name/ID is required"
  | some plan_id =>
    match g.plans.plans.find? (fun p => p.id == plan_id || p.name == plan_id) with
    | none => .error ("Plan not found: " ++ plan_id)
    | some plan =>
      if plan.status = PlanStatus.Applied then .error "Plan has already been applied"
      else if args.dry_run then .ok (.dryRun plan)
      else .ok (.executed (run_apply_normal envUser now g plan args))

/-- Observable outcome of a non-dry-run `run_undo`. -/
structure UndoOutcome where
  graph : EcosystemGraph
  result : ApplyResult
  op_results : List OpResult
deriving Inhabited

/-- Result of `run_undo`: the dry-run path or an executed undo. -/
inductive UndoRun where
  | dryRun (rollback_ops : List PlanOp)
  | executed (out : UndoOutcome)
deriving Inhabited

/-- The normal (non-dry-run) body of `run_undo`
(src/src/commands/apply.rs:245-318) on a found, applied plan. -/
def run_undo_normal (envUser : Option String) (now : Nat) (g : EcosystemGraph)
    (plan : Plan) : UndoOutcome :=
  let rollback_ops := (plan.operations.reverse).filterMap reverse_operation
  let (op_results, failure_index, _, g1) :=
    apply_ops envUser now false g rollback_ops 0
  let failed := failure_index.isSome
  let result := if failed then ApplyResult.PartialFailure else ApplyResult.Success
  let entry : AuditEntry :=
    { kind := "AuditEntry"
      id := "audit:undo:" ++ plan.id ++ ":" ++ toString now
      plan_id := plan.id
      result := result
      op_results := op_results
      started_at := now
      finished_at := now
      applied_by := envUser.getD "unknown"
      auto_rollback_triggered := false
      rollback_plan_id := none
      health_check_passed := none
      notes := ["Manual undo operation"] }
  let g2 := { g1 with audit := { entries := g1.audit.entries ++ [entry] } }
  let undoUpd := fun (p : Plan) =>
    { p with status := PlanStatus.Draft, applied_at := (none : Option Nat) }
  let g3 :=
    if !failed then
      { g2 with plans :=
        { g2.plans with plans :=
          (updateFirst (fun p => p.id == plan.id) undoUpd g2.plans.plans) } }
    else g2
  { graph := g3, result := result, op_results := op_results }

/-- `run_undo` (src/src/commands/apply.rs:208-319).  The undo loop records
every operation's result and never breaks early, which is exactly
`apply_ops` with auto-rollback disabled. -/
def run_undo (envUser : Option String) (now : Nat) (g : EcosystemGraph)
    (plan_name : Option String) (args : ApplyArgs) : Except String UndoRun :=
  match plan_name with
  | none => .error "Plan name/ID is required"
  | some plan_id =>
    match g.plans.plans.find? (fun p => p.id == plan_id || p.name == plan_id) with
    | none => .error ("Plan not found: " ++ plan_id)
    | some plan =>
      if plan.status ≠ PlanStatus.Applied then .error "Plan has not been applied, cannot undo"
      else
        let rollback_ops := (plan.operations.reverse).filterMap reverse_operation
        if args.dry_run then .ok (.dryRun rollback_ops)
        else .ok (.executed (run_undo_normal envUser now g plan))

-- ===========================================================================
-- Plan derivation (src/src/commands/plan.rs)
-- ===========================================================================

/-- `assess_binding_switch_risk` (src/src/commands/plan.rs:211-251).  The
`_binding` parameter is unused in the source and omitted here; `risk_score`
is an `i32` accumulated from non-negative increments. -/
def assess_binding_switch_risk (g : EcosystemGraph) (from_provider to_provider : Provider) :
    RiskLevel :=
  let s0 : Int := 0
  let s1 :=
    if from_provider.provider_type = ProviderType.Local
        ∧ to_provider.provider_type = ProviderType.External then s0 + 2 else s0
  let s2 := if to_provider.is_fallback then s1 + 1 else s1
  let s3 := if from_provider.interface_version ≠ to_provider.interface_version then s2 + 1 else s2
  let risk_score := List.foldl
    (fun acc a =>
      if (a.target == from_provider.id || a.target == to_provider.id)
          && a.polarity = Polarity.Risk then acc + (a.weight : Int) else acc)
    s3 ( AspectStore.annotations g.aspects)
  if risk_score = 0 then RiskLevel.Low
  else if risk_score = 1 then RiskLevel.Medium
  else if 2 ≤ risk_score ∧ risk_score ≤ 3 then RiskLevel.High
  else RiskLevel.Critical

/-- `generate_plan_operations` (src/src/commands/plan.rs:107-208).  The
changeset loop and the consumers-needing-bindings loop only emit debug
logging in the source; the only operations pushed come from the
higher-priority-alternative loop over the current bindings.  The unused
scenario-id parameter is kept for signature fidelity. -/
def generate_plan_operations (g : EcosystemGraph) (_scenario_id : String)
    (_changeset : Option ChangeSet) : List PlanOp :=
  g.slots.bindings.flatMap (fun binding =>
    match g.slots.providers.find? (fun p => p.id == binding.provider_id) with
    | none => []
    | some provider =>
      let alternatives := g.slots.providers.filter
        (fun p => p.slot_id == binding.slot_id && p.id ≠ binding.provider_id)
      alternatives.filterMap (fun alt =>
        if alt.priority > provider.priority && !alt.is_fallback then
          if (g.slots.check_compatibility binding.slot_id alt.id).compatible then
            some (PlanOp.SwitchBinding binding.id binding.consumer_id binding.slot_id
              binding.provider_id alt.id
              (assess_binding_switch_risk g provider alt)
              ("Higher priority provider available: " ++ alt.name
                ++ " (priority " ++ toString alt.priority ++ ") vs " ++ provider.name
                ++ " (priority " ++ toString provider.priority ++ ")"))
          else none
        else none))

-- ===========================================================================
-- Binding command (src/src/commands/slot.rs, `run_binding`, "bind" arm)
-- ===========================================================================

/-- The "bind" arm of `run_binding` (src/src/commands/slot.rs:396-472), from
the loaded graph to the saved graph.  `created_by` is the literal "user" in
the source. -/
def run_binding_bind (now : Nat) (g : EcosystemGraph)
    (consumer slot_arg provider_arg : String) : Except String EcosystemGraph :=
  match g.store.repos.find? (fun r => r.name == consumer || r.id == consumer) with
  | none => .error ("Consumer repo not found: " ++ consumer)
  | some r =>
    let consumer_id := r.id
    let slot_id := if rustStartsWith slot_arg "slot:" then slot_arg else "slot:" ++ slot_arg
    if !(g.slots.slots.any (fun s => s.id == slot_id)) then
      .error ("Slot not found: " ++ slot_id)
    else
      let provider_idE : Except String String :=
        if rustStartsWith provider_arg "provider:" then .ok provider_arg
        else
          match g.slots.providers.find? (fun p => p.name == provider_arg) with
          | some p => .ok p.id
          | none => .error ("Provider not found: " ++ provider_arg)
      match provider_idE with
      | .error e => .error e
      | .ok provider_id =>
        match g.slots.providers.find? (fun p => p.id == provider_id) with
        | none => .error ("Provider not found: " ++ provider_id)
        | some provider =>
          if provider.slot_id ≠ slot_id then
            .error ("Provider " ++ provider_id ++ " is for slot " ++ provider.slot_id
              ++ ", not " ++ slot_id)
          else
            let compat := g.slots.check_compatibility slot_id provider_id
            if !compat.compatible then
              .error ("Provider incompatible: " ++ compat.reason)
            else
              let binding_id := SlotBinding.generate_id consumer_id slot_id
              let bs := g.slots.bindings.filter (fun b => b.id ≠ binding_id)
              let binding : SlotBinding :=
                { kind := "SlotBinding"
                  id := binding_id
                  consumer_id := consumer_id
                  slot_id := slot_id
                  provider_id := provider_id
                  mode := BindingMode.Manual
                  created_at := now
                  created_by := "user" }
              .ok { g with slots := { g.slots with bindings := bs ++ [binding] } }

-- ===========================================================================
-- Persistence (src/src/graph.rs, `EcosystemGraph::save`)
-- ===========================================================================

/-- A file-system command issued by the persistence layer. -/
inductive FsOp where
  | CreateDirAll (dir : String)
  | Write (path : String) (contents : String)
  | Rename (src : String) (dst : String)
deriving DecidableEq, Inhabited

/-- The trace of file-system commands issued by `EcosystemGraph::save`
(src/src/graph.rs:79-97): create the directory, then `fs::write` each
serialized document directly to its destination path.  The serializers
(`serde_json::to_string_pretty`) are parameters of the model. -/
def save_trace (serializeGraph : GraphStore → String)
    (serializeAspects : AspectStore → String)
    (g : EcosystemGraph) (dir : String) : List FsOp :=
  [ FsOp.CreateDirAll dir,
    FsOp.Write (dir ++ "/graph.json") (serializeGraph g.store),
    FsOp.Write (dir ++ "/aspects.json") (serializeAspects g.aspects) ]

/-- Spec-side atomicity (§4.2 / §5, stated from the spec's words): every
document write goes to a temporary file (never directly to a destination
path) and every destination is produced by renaming some file onto it. -/
def atomic_save_trace (trace : List FsOp) (destinations : List String) : Prop :=
  (∀ p c, FsOp.Write p c ∈ trace → p ∉ destinations) ∧
  (∀ d ∈ destinations, ∃ tmp, FsOp.Rename tmp d ∈ trace)

-- ===========================================================================
-- Specification-side definitions for risk (claim C9) and health (claim C6)
-- ===========================================================================

/-- The additive per-op risk score from the spec's words (§4.5): +2 for a
local-to-external switch, +1 for a fallback target, +1 for differing
interface versions, plus the weight of each risk-polarity annotation whose
target is either endpoint. -/
def spec_risk_score (g : EcosystemGraph) (from_provider to_provider : Provider) : Int :=
  (if from_provider.provider_type = ProviderType.Local
      ∧ to_provider.provider_type = ProviderType.External then 2 else 0)
  + (if to_provider.is_fallback then 1 else 0)
  + (if from_provider.interface_version ≠ to_provider.interface_version then 1 else 0)
  + ((( AspectStore.annotations g.aspects).filter
      (fun a => a.polarity = Polarity.Risk
        ∧ (a.target = from_provider.id ∨ a.target = to_provider.id))).map
      (fun a => (a.weight : Int))).sum

/-- The score-to-level map from the spec's words (§4.5):
0 → Low, 1 → Medium, 2–3 → High, ≥ 4 → Critical. -/
def spec_risk_of_score (s : Int) : RiskLevel :=
  if s = 0 then RiskLevel.Low
  else if s = 1 then RiskLevel.Medium
  else if 2 ≤ s ∧ s ≤ 3 then RiskLevel.High
  else RiskLevel.Critical

/-- The version test of the health check's second loop as a Bool: true when
the binding's slot and provider are both found and their `interface_version`
options differ. -/
def version_trip (st : SlotStore) (b : SlotBinding) : Bool :=
  match st.slots.find? (fun s => s.id == b.slot_id),
        st.providers.find? (fun p => p.id == b.provider_id) with
  | some slot, some provider => slot.interface_version ≠ provider.interface_version
  | _, _ => false

/-- The health condition from the source's checks, stated as a predicate over
a single binding: its slot exists, its provider exists, and the slot and
provider found for it declare equal `interface_version` options. -/
def binding_healthy (st : SlotStore) (b : SlotBinding) : Prop :=
  (∃ s ∈ st.slots, s.id = b.slot_id) ∧
  (∃ p ∈ st.providers, p.id = b.provider_id) ∧
  (∀ slot provider,
    st.slots.find? (fun s => s.id == b.slot_id) = some slot →
    st.providers.find? (fun p => p.id == b.provider_id) = some provider →
    slot.interface_version = provider.interface_version)

-- ===========================================================================
-- Concrete fixtures (the container.runtime scenario of spec §8), used by the
-- witnesses and counterexamples below
-- ===========================================================================

/-- An empty graph store. -/
def emptyGraphStore : GraphStore :=
  { repos := [], components := [], groups := [], edges := [], scenarios := [], changesets := [] }

/-- An empty aspect store (annotations only matter for the risk claims). -/
def emptyAspects : AspectStore := { aspects := [], annotations := [] }

/-- An entirely empty ecosystem graph. -/
def Gempty : EcosystemGraph :=
  { store := emptyGraphStore
    aspects := emptyAspects
    slots := { slots := [], providers := [], bindings := [] }
    plans := { plans := [], diffs := [] }
    audit := { entries := [] } }

/-- Consumer repo `webapp`. -/
def repoWebapp : Repo :=
  { kind := "Repo", id := "repo:gh:myorg/webapp", forge := Forge.GitHub, owner := "myorg"
    name := "webapp", default_branch := "main", visibility := Visibility.Public, tags := []
    imports := { source := "test", path_hint := none, imported_at := 0 }, local_path := none }

/-- Slot `container.runtime`, interface 1.0, requiring build and run. -/
def slotRuntime : Slot :=
  { kind := "Slot", id := "slot:container.runtime", name := "container.runtime"
    category := "container", description := "", interface_version := some "1.0"
    required_capabilities := ["build", "run"] }

/-- Local provider `podman`, priority 100. -/
def provPodman : Provider :=
  { kind := "Provider", id := "provider:container.runtime:podman", name := "podman"
    slot_id := "slot:container.runtime", provider_type := ProviderType.Local
    repo_id := none, external_uri := none, interface_version := some "1.0"
    capabilities := ["build", "run", "rootless"], priority := 100, is_fallback := false }

/-- Ecosystem provider `cerro-torre`, priority 50. -/
def provCerro : Provider :=
  { kind := "Provider", id := "provider:container.runtime:cerro-torre", name := "cerro-torre"
    slot_id := "slot:container.runtime", provider_type := ProviderType.Ecosystem
    repo_id := none, external_uri := none, interface_version := some "1.0"
    capabilities := ["build", "run", "daemonless"], priority := 50, is_fallback := false }

/-- External provider that declares no interface version (the slot declares
one): compatible per the §4.4 oracle, rejected by the executor. -/
def provNover : Provider :=
  { kind := "Provider", id := "provider:container.runtime:nover", name := "nover"
    slot_id := "slot:container.runtime", provider_type := ProviderType.External
    repo_id := none, external_uri := none, interface_version := none
    capabilities := ["build", "run"], priority := 10, is_fallback := false }

/-- Initial binding of webapp to podman, with the documented
`binding:<consumer-short>:<slot-short>` id, mode auto. -/
def b0 : SlotBinding :=
  { kind := "SlotBinding"
    id := SlotBinding.generate_id "repo:gh:myorg/webapp" "slot:container.runtime"
    consumer_id := "repo:gh:myorg/webapp", slot_id := "slot:container.runtime"
    provider_id := "provider:container.runtime:podman", mode := BindingMode.Auto
    created_at := 0, created_by := "user" }

/-- A one-operation plan switching webapp's runtime from podman to
cerro-torre. -/
def planSwap : Plan :=
  { kind := "Plan", id := "plan:swap:1", name := "swap", scenario_id := "scenario:swap"
    description := none
    operations := [PlanOp.SwitchBinding b0.id "repo:gh:myorg/webapp" "slot:container.runtime"
      "provider:container.runtime:podman" "provider:container.runtime:cerro-torre"
      RiskLevel.Low "swap"]
    overall_risk := RiskLevel.Low, status := PlanStatus.Ready, created_at := 0
    created_by := "user", applied_at := none, rollback_plan_id := none }

/-- The main fixture graph: webapp bound to podman, plan `plan:swap:1`
pending. -/
def G0 : EcosystemGraph :=
  { store := { emptyGraphStore with repos := [repoWebapp] }
    aspects := emptyAspects
    slots := { slots := [slotRuntime], providers := [provPodman, provCerro], bindings := [b0] }
    plans := { plans := [planSwap], diffs := [] }
    audit := { entries := [] } }

/-- Normal apply arguments: no dry-run, no auto-rollback, health check on. -/
def argsNormal : ApplyArgs :=
  { dry_run := false, auto_rollback := false, skip_health_check := false }

/-- Apply arguments with auto-rollback enabled. -/
def argsRollback : ApplyArgs :=
  { dry_run := false, auto_rollback := true, skip_health_check := false }

/-- The apply half of the apply-undo pipeline on `G0`. -/
def applyOut0 : ApplyOutcome :=
  match run_apply (some "alice") 5 G0 (some "plan:swap:1") argsNormal with
  | .ok (.executed o) => o
  | _ => default

/-- The undo half of the apply-undo pipeline on `G0`. -/
def undoOut0 : UndoOutcome :=
  match run_undo (some "alice") 9 applyOut0.graph (some "plan:swap:1") argsNormal with
  | .ok (.executed o) => o
  | _ => default

/-- A one-operation plan whose single switch targets a provider that does not
exist, so its only operation fails at index 0. -/
def planGhost : Plan :=
  { kind := "Plan", id := "plan:ghost:1", name := "ghost", scenario_id := "scenario:ghost"
    description := none
    operations := [PlanOp.SwitchBinding b0.id "repo:gh:myorg/webapp" "slot:container.runtime"
      "provider:container.runtime:podman" "provider:container.runtime:ghost"
      RiskLevel.Low "to ghost"]
    overall_risk := RiskLevel.Low, status := PlanStatus.Ready, created_at := 0
    created_by := "user", applied_at := none, rollback_plan_id := none }

/-- `G0` with the ghost plan instead of the swap plan. -/
def Gghost : EcosystemGraph := { G0 with plans := { plans := [planGhost], diffs := [] } }

/-- The outcome of applying the ghost plan with auto-rollback. -/
def ghostOut : ApplyOutcome :=
  match run_apply (some "alice") 5 Gghost (some "plan:ghost:1") argsRollback with
  | .ok (.executed o) => o
  | _ => default

/-- `G0`'s slot store extended with the version-less provider, for the
executor-versus-oracle counterexample. -/
def G1 : EcosystemGraph :=
  { G0 with slots :=
    { slots := [slotRuntime], providers := [provPodman, provNover], bindings := [] } }

/-- Slot requiring a capability (`rootless`) its bound provider lacks. -/
def slotRootless : Slot :=
  { kind := "Slot", id := "slot:container.rt2", name := "rt2", category := "container"
    description := "", interface_version := some "1.0"
    required_capabilities := ["build", "run", "rootless"] }

/-- Provider bound to `slotRootless` without the `rootless` capability. -/
def provDocker : Provider :=
  { kind := "Provider", id := "provider:container.rt2:docker", name := "docker"
    slot_id := "slot:container.rt2", provider_type := ProviderType.External
    repo_id := none, external_uri := none, interface_version := some "1.0"
    capabilities := ["build", "run"], priority := 25, is_fallback := true }

/-- A persisted binding pairing `slotRootless` with `provDocker`: the oracle
rejects the pair (missing capability) but the versions agree. -/
def bDocker : SlotBinding :=
  { kind := "SlotBinding", id := "binding:x", consumer_id := "repo:gh:myorg/webapp"
    slot_id := "slot:container.rt2", provider_id := "provider:container.rt2:docker"
    mode := BindingMode.Manual, created_at := 0, created_by := "user" }

/-- Fixture for the health-check counterexample. -/
def G6 : EcosystemGraph :=
  { Gempty with slots :=
    { slots := [slotRootless], providers := [provDocker], bindings := [bDocker] } }

/-- A risk-polarity annotation of weight 2 on podman. -/
def annRisk : AspectAnnotation :=
  { kind := "AspectAnnotation", id := "aa:1", target := "provider:container.runtime:podman"
    aspect_id := "aspect:security", weight := 2, polarity := Polarity.Risk, reason := "r"
    evidence := []
    source := { mode := "manual", who := "t", when_ := 0, rule_id := none } }

/-- Webapp bound to cerro-torre (podman, priority 100, is the better
alternative plan derivation will propose). -/
def bCerro : SlotBinding :=
  { kind := "SlotBinding"
    id := SlotBinding.generate_id "repo:gh:myorg/webapp" "slot:container.runtime"
    consumer_id := "repo:gh:myorg/webapp", slot_id := "slot:container.runtime"
    provider_id := "provider:container.runtime:cerro-torre", mode := BindingMode.Auto
    created_at := 0, created_by := "user" }

/-- Fixture for the risk-assessment witness: one binding (to cerro-torre),
one higher-priority alternative (podman) carrying a weight-2 risk
annotation. -/
def G9 : EcosystemGraph :=
  { store := { emptyGraphStore with repos := [repoWebapp] }
    aspects := { aspects := [], annotations := [annRisk] }
    slots := { slots := [slotRuntime], providers := [provPodman, provCerro], bindings := [bCerro] }
    plans := { plans := [], diffs := [] }
    audit := { entries := [] } }

/-- A binding for the (webapp, container.runtime) pair stored under the
executor's three-part id format rather than the canonical
`SlotBinding::generate_id` format. -/
def bForeign : SlotBinding :=
  { kind := "SlotBinding", id := "binding:container.runtime:myorg/webapp:podman"
    consumer_id := "repo:gh:myorg/webapp", slot_id := "slot:container.runtime"
    provider_id := "provider:container.runtime:podman", mode := BindingMode.Manual
    created_at := 0, created_by := "apply" }

/-- Fixture for the bind-command counterexample: the pair already has a
binding, but under a non-canonical id. -/
def G10 : EcosystemGraph :=
  { store := { emptyGraphStore with repos := [repoWebapp] }
    aspects := emptyAspects
    slots := { slots := [slotRuntime], providers := [provPodman, provCerro]
               bindings := [bForeign] }
    plans := { plans := [], diffs := [] }
    audit := { entries := [] } }

/-- The graph produced by the bind command on `G10` (used by the
counterexample below). -/
def G10' : EcosystemGraph :=
  match run_binding_bind 3 G10 "webapp" "container.runtime" "podman" with
  | .ok g => g
  | .error _ => Gempty

-- ===========================================================================
-- Shared helper lemmas
-- ===========================================================================

/-- Filtering a list that kept only elements with ids different from `c` for
elements with id `c` yields nothing. -/
theorem filter_ne_then_eq (c : String) (l : List SlotBinding) :
    (l.filter (fun b => b.id ≠ c)).filter (fun b => b.id == c) = [] := by
  rw [List.filter_eq_nil_iff]
  intro b hb
  rw [List.mem_filter] at hb
  have := hb.2
  simp only [decide_eq_true_eq] at this
  simp [this]

theorem updateFirst_comp (pred : α → Bool) (f h : α → α) (l : List α)
    (hpred : ∀ x, pred (h x) = pred x) :
    updateFirst pred f (updateFirst pred h l) = updateFirst pred (fun x => f (h x)) l := by
  induction l with
  | nil => rfl
  | cons x xs ih =>
    by_cases hx : pred x
    · simp [updateFirst, hx, hpred]
    · simp [updateFirst, hx, ih]

/-- The source code's version-match computation agrees with the spec-side
`specVersionMatch`. -/
theorem versionMatch_eq (sv pv : Option String) :
    (match sv, pv with
      | some a, some b => a == b
      | none, _ => true
      | _, none => true) = specVersionMatch sv pv := by
  cases sv with
  | none => cases pv <;> simp [specVersionMatch]
  | some a =>
    cases pv with
    | none => simp [specVersionMatch]
    | some b => by_cases h : a = b <;> simp [specVersionMatch, h]

/-- `execute_operation` never touches the graph, aspect, plan or audit
stores: only the slot store's bindings change. -/
theorem execute_operation_frame (e : Option String) (n : Nat) (g : EcosystemGraph) (op : PlanOp) :
    (execute_operation e n g op).2.store = g.store ∧
    (execute_operation e n g op).2.aspects = g.aspects ∧
    (execute_operation e n g op).2.plans = g.plans ∧
    (execute_operation e n g op).2.audit = g.audit ∧
    (execute_operation e n g op).2.slots.slots = g.slots.slots ∧
    (execute_operation e n g op).2.slots.providers = g.slots.providers := by
  cases op <;> simp only [execute_operation] <;> (repeat' split) <;>
    first
    | exact ⟨rfl, rfl, rfl, rfl, rfl, rfl⟩
    | simp

/-- `apply_ops` preserves every component but the slot store's bindings. -/
theorem apply_ops_frame (e : Option String) (n : Nat) (ar : Bool) :
    ∀ (l : List PlanOp) (g : EcosystemGraph) (i : Nat),
    (apply_ops e n ar g l i).2.2.2.store = g.store ∧
    (apply_ops e n ar g l i).2.2.2.aspects = g.aspects ∧
    (apply_ops e n ar g l i).2.2.2.plans = g.plans ∧
    (apply_ops e n ar g l i).2.2.2.audit = g.audit ∧
    (apply_ops e n ar g l i).2.2.2.slots.slots = g.slots.slots ∧
    (apply_ops e n ar g l i).2.2.2.slots.providers = g.slots.providers := by
  intro l
  induction l with
  | nil => intro g i; exact ⟨rfl, rfl, rfl, rfl, rfl, rfl⟩
  | cons op rest ih =>
    intro g i
    have hop := execute_operation_frame e n g op
    simp only [apply_ops]
    rcases hexec : execute_operation e n g op with ⟨err, g'⟩
    rw [hexec] at hop
    cases err with
    | none =>
      simp only
      rcases happ : apply_ops e n ar g' rest (i + 1) with ⟨rs, fi, ns, g''⟩
      have := ih g' (i + 1)
      rw [happ] at this
      simp only at this ⊢
      exact ⟨this.1.trans hop.1, this.2.1.trans hop.2.1, this.2.2.1.trans hop.2.2.1,
        this.2.2.2.1.trans hop.2.2.2.1, this.2.2.2.2.1.trans hop.2.2.2.2.1,
        this.2.2.2.2.2.trans hop.2.2.2.2.2⟩
    | some msg =>
      simp only
      split
      · exact hop
      · rcases happ : apply_ops e n ar g' rest (i + 1) with ⟨rs, fi, ns, g''⟩
        have := ih g' (i + 1)
        rw [happ] at this
        simp only at this ⊢
        exact ⟨this.1.trans hop.1, this.2.1.trans hop.2.1, this.2.2.1.trans hop.2.2.1,
          this.2.2.2.1.trans hop.2.2.2.1, this.2.2.2.2.1.trans hop.2.2.2.2.1,
          this.2.2.2.2.2.trans hop.2.2.2.2.2⟩

/-- `exec_rollback_loop` preserves every component but the slot store's
bindings. -/
theorem exec_rollback_loop_frame (e : Option String) (n : Nat) :
    ∀ (l : List PlanOp) (g : EcosystemGraph) (i : Nat),
    (exec_rollback_loop e n g l i).2.2.store = g.store ∧
    (exec_rollback_loop e n g l i).2.2.aspects = g.aspects ∧
    (exec_rollback_loop e n g l i).2.2.plans = g.plans ∧
    (exec_rollback_loop e n g l i).2.2.audit = g.audit := by
  intro l
  induction l with
  | nil => intro g i; exact ⟨rfl, rfl, rfl, rfl⟩
  | cons op rest ih =>
    intro g i
    have hop := execute_operation_frame e n g op
    simp only [exec_rollback_loop]
    rcases hexec : execute_operation e n g op with ⟨err, g'⟩
    rw [hexec] at hop
    cases err with
    | none =>
      simp only
      rcases hloop : exec_rollback_loop e n g' rest (i + 1) with ⟨tr, res, g''⟩
      have := ih g' (i + 1)
      rw [hloop] at this
      simp only at this ⊢
      exact ⟨this.1.trans hop.1, this.2.1.trans hop.2.1, this.2.2.1.trans hop.2.2.1,
        this.2.2.2.trans hop.2.2.2.1⟩
    | some msg => exact ⟨hop.1, hop.2.1, hop.2.2.1, hop.2.2.2.1⟩

/-- When the rollback loop reports no failure, it attempted every operation
of its input list, in order. -/
theorem exec_rollback_loop_trace (e : Option String) (n : Nat) :
    ∀ (l : List PlanOp) (g : EcosystemGraph) (i : Nat),
    (exec_rollback_loop e n g l i).2.1 = none → (exec_rollback_loop e n g l i).1 = l := by
  intro l
  induction l with
  | nil => intro g i _; rfl
  | cons op rest ih =>
    intro g i h
    simp only [exec_rollback_loop] at h ⊢
    rcases hexec : execute_operation e n g op with ⟨err, g'⟩
    rw [hexec] at h
    cases err with
    | none =>
      simp only at h ⊢
      rcases hloop : exec_rollback_loop e n g' rest (i + 1) with ⟨tr, res, g''⟩
      rw [hloop] at h
      have ihg := ih g' (i + 1)
      rw [hloop] at ihg
      simp only at h ihg ⊢
      rw [ihg h]
    | some msg => simp at h

/-- A successful `execute_rollback` attempted exactly the compensating
operations of `rollback_ops_of`. -/
theorem execute_rollback_ok_trace (e : Option String) (n : Nat) (g : EcosystemGraph)
    (plan : Plan) (k : Nat) (tr : List PlanOp) (rid : String) (g' : EcosystemGraph)
    (h : execute_rollback e n g plan k = (tr, Except.ok rid, g')) :
    tr = rollback_ops_of plan.operations k := by
  simp only [execute_rollback] at h
  rcases hloop : exec_rollback_loop e n g (rollback_ops_of plan.operations k) 0
    with ⟨tr', res, g''⟩
  rw [hloop] at h
  cases res with
  | none =>
    simp only [Prod.mk.injEq] at h
    have htr := exec_rollback_loop_trace e n (rollback_ops_of plan.operations k) g 0
    rw [hloop] at htr
    simp only at htr
    exact h.1 ▸ htr trivial
  | some p => rcases p with ⟨i, msg⟩; simp at h

/-- `execute_rollback` preserves every component but the slot store's
bindings. -/
theorem execute_rollback_frame (e : Option String) (n : Nat) (g : EcosystemGraph)
    (plan : Plan) (k : Nat) :
    (execute_rollback e n g plan k).2.2.store = g.store ∧
    (execute_rollback e n g plan k).2.2.aspects = g.aspects ∧
    (execute_rollback e n g plan k).2.2.plans = g.plans ∧
    (execute_rollback e n g plan k).2.2.audit = g.audit := by
  simp only [execute_rollback]
  have := exec_rollback_loop_frame e n (rollback_ops_of plan.operations k) g 0
  rcases hloop : exec_rollback_loop e n g (rollback_ops_of plan.operations k) 0
    with ⟨tr', res, g''⟩
  rw [hloop] at this
  cases res <;> simp only at this ⊢ <;> exact this

/-- `List.find?` after `updateFirst`: if `p` is the first plan matching the
id-or-name lookup for `pid`, `p.id = pid`, and `f` preserves ids and names,
then after updating the first plan whose id is `p.id` the same lookup finds
`f p`. -/
theorem find?_updateFirst_plan (l : List Plan) (pid : String) (p : Plan) (f : Plan → Plan)
    (hid : ∀ q, (f q).id = q.id) (hname : ∀ q, (f q).name = q.name)
    (h : l.find? (fun q => q.id == pid || q.name == pid) = some p) (hpid : p.id = pid) :
    (updateFirst (fun q => q.id == p.id) f l).find? (fun q => q.id == pid || q.name == pid)
      = some (f p) := by
  induction l with
  | nil => simp at h
  | cons x xs ih =>
    cases hx : (x.id == pid || x.name == pid) with
    | true =>
      simp only [List.find?, hx] at h
      obtain rfl : x = p := by injection h
      have hq : (x.id == x.id) = true := by simp
      have hfp : ((f x).id == pid || (f x).name == pid) = true := by
        simp [hid, hname, hpid]
      simp only [updateFirst, hq, if_true, List.find?, hfp]
    | false =>
      simp only [List.find?, hx] at h
      have hxpidne : x.id ≠ pid := by
        intro hcontra
        simp [hcontra] at hx
      have hxid : (x.id == p.id) = false := by
        rw [hpid]
        exact beq_eq_false_iff_ne.mpr hxpidne
      simp only [updateFirst, hxid, Bool.false_eq_true, if_false, List.find?, hx]
      exact ih h

/-- Bool-flag folds of the shape used by `run_health_check`: the flag ends up
true iff it started true and no element trips the condition. -/
theorem foldl_flag (l : List α) (c : α → Bool) (init : Bool) :
    l.foldl (fun h a => if c a then false else h) init = (init && l.all (fun a => !c a)) := by
  induction l generalizing init with
  | nil => simp
  | cons x xs ih =>
    rw [List.foldl_cons, List.all_cons]
    cases hx : c x with
    | true =>
      rw [if_pos (by simp [hx]), ih false]
      simp
    | false =>
      rw [if_neg (by simp [hx]), ih init]
      simp

/-- Conditional-accumulation folds of the shape used by
`assess_binding_switch_risk` equal the sum of the weights of the matching
elements. -/
theorem foldl_cond_add (l : List AspectAnnotation) (c : AspectAnnotation → Bool) (init : Int) :
    l.foldl (fun acc a => if c a then acc + (a.weight : Int) else acc) init
      = init + ((l.filter c).map (fun a => (a.weight : Int))).sum := by
  induction l generalizing init with
  | nil => simp
  | cons x xs ih =>
    rw [List.foldl_cons, List.filter_cons]
    cases hx : c x with
    | true =>
      rw [if_pos (by simp [hx]), if_pos (by simp [hx]), ih (init + (x.weight : Int))]
      simp
      ring
    | false =>
      rw [if_neg (by simp [hx]), if_neg (by simp [hx]), ih init]

/-- Dissection of a `run_apply` call that produced an executed outcome: the
plan was found, was not already applied, the call was not a dry run, and the
outcome is `run_apply_normal`. -/
theorem run_apply_executed_cases (e : Option String) (n : Nat) (g : EcosystemGraph)
    (pid : String) (args : ApplyArgs) (p : Plan) (out : ApplyOutcome)
    (hfind : g.plans.plans.find? (fun q => q.id == pid || q.name == pid) = some p)
    (hrun : run_apply e n g (some pid) args = .ok (.executed out)) :
    p.status ≠ PlanStatus.Applied ∧ args.dry_run = false
      ∧ out = run_apply_normal e n g p args := by
  simp only [run_apply, hfind] at hrun
  by_cases hst : p.status = PlanStatus.Applied
  · rw [if_pos hst] at hrun
    simp at hrun
  · rw [if_neg hst] at hrun
    by_cases hdr : args.dry_run = true
    · rw [if_pos hdr] at hrun
      simp at hrun
    · rw [if_neg hdr] at hrun
      simp only [Except.ok.injEq, ApplyRun.executed.injEq] at hrun
      exact ⟨hst, by simpa using hdr, hrun.symm⟩

/-- Dissection of a `run_undo` call that produced an executed outcome. -/
theorem run_undo_executed_cases (e : Option String) (n : Nat) (g : EcosystemGraph)
    (pid : String) (args : ApplyArgs) (p : Plan) (uout : UndoOutcome)
    (hfind : g.plans.plans.find? (fun q => q.id == pid || q.name == pid) = some p)
    (hrun : run_undo e n g (some pid) args = .ok (.executed uout)) :
    p.status = PlanStatus.Applied ∧ args.dry_run = false
      ∧ uout = run_undo_normal e n g p := by
  simp only [run_undo, hfind] at hrun
  by_cases hst : p.status = PlanStatus.Applied
  · rw [if_neg (by simp [hst])] at hrun
    by_cases hdr : args.dry_run = true
    · rw [if_pos hdr] at hrun
      simp at hrun
    · rw [if_neg hdr] at hrun
      simp only [Except.ok.injEq, UndoRun.executed.injEq] at hrun
      exact ⟨hst, by simpa using hdr, hrun.symm⟩
  · rw [if_pos (by simp [hst])] at hrun
    simp at hrun

/-- `apply_phase2` reports Success exactly when there was no failure. -/
theorem apply_phase2_success_iff (e : Option String) (n : Nat) (ar : Bool)
    (g1 : EcosystemGraph) (plan : Plan) (fi : Option Nat) :
    (apply_phase2 e n ar g1 plan fi).2.1 = ApplyResult.Success ↔ fi = none := by
  cases fi with
  | none => simp [apply_phase2]
  | some k =>
    simp only [apply_phase2]
    by_cases har : ar = true
    · rw [if_pos har]
      rcases hrb : execute_rollback e n g1 plan k with ⟨tr, rres, g2⟩
      cases rres <;> simp
    · rw [if_neg har]
      simp

/-- `apply_phase2` on no failure. -/
theorem apply_phase2_none (e : Option String) (n : Nat) (ar : Bool)
    (g1 : EcosystemGraph) (plan : Plan) :
    apply_phase2 e n ar g1 plan none = ([], ApplyResult.Success, false, none, [], g1) := rfl

/-- `apply_phase2` preserves every component but the slot store. -/
theorem apply_phase2_frame (e : Option String) (n : Nat) (ar : Bool)
    (g1 : EcosystemGraph) (plan : Plan) (fi : Option Nat) :
    (apply_phase2 e n ar g1 plan fi).2.2.2.2.2.store = g1.store ∧
    (apply_phase2 e n ar g1 plan fi).2.2.2.2.2.aspects = g1.aspects ∧
    (apply_phase2 e n ar g1 plan fi).2.2.2.2.2.plans = g1.plans ∧
    (apply_phase2 e n ar g1 plan fi).2.2.2.2.2.audit = g1.audit := by
  cases fi with
  | none => exact ⟨rfl, rfl, rfl, rfl⟩
  | some k =>
    simp only [apply_phase2]
    by_cases har : ar = true
    · rw [if_pos har]
      have hfr := execute_rollback_frame e n g1 plan k
      rcases hrb : execute_rollback e n g1 plan k with ⟨tr, rres, g2⟩
      rw [hrb] at hfr
      cases rres <;> simpa using hfr
    · rw [if_neg har]
      exact ⟨rfl, rfl, rfl, rfl⟩

/-- A RolledBack result means: there was a failure at some index, auto
rollback was requested, the compensation succeeded, and the reported trace is
the compensation trace. -/
theorem apply_phase2_rolledback (e : Option String) (n : Nat) (ar : Bool)
    (g1 : EcosystemGraph) (plan : Plan) (fi : Option Nat)
    (h : (apply_phase2 e n ar g1 plan fi).2.1 = ApplyResult.RolledBack) :
    ∃ k tr rid g2, fi = some k ∧ ar = true
      ∧ execute_rollback e n g1 plan k = (tr, Except.ok rid, g2)
      ∧ (apply_phase2 e n ar g1 plan fi).1 = tr := by
  cases fi with
  | none => simp [apply_phase2] at h
  | some k =>
    simp only [apply_phase2] at h ⊢
    by_cases har : ar = true
    · rw [if_pos har] at h ⊢
      rcases hrb : execute_rollback e n g1 plan k with ⟨tr, rres, g2⟩
      rw [hrb] at h
      cases rres with
      | ok rid => exact ⟨k, tr, rid, g2, rfl, har, hrb, rfl⟩
      | error msg => simp at h
    · rw [if_neg har] at h
      simp at h

-- ===========================================================================
-- Claim C5 — the compatibility oracle
-- ===========================================================================

/-- C5: for every slot and provider present in the store (with
`provider.slot_id = slot_id`), `check_compatibility` returns
`compatible = version_match ∧ capabilities_missing.empty`, with
`version_match` true unless both sides declare an interface version and they
differ by exact string equality, and `capabilities_missing` exactly
`slot.required_capabilities \ provider.capabilities`. -/
theorem check_compatibility_matches_spec (st : SlotStore) (slot_id provider_id : String)
    (slot : Slot) (provider : Provider)
    (hs : st.slots.find? (fun s => s.id == slot_id) = some slot)
    (hp : st.providers.find? (fun p => p.id == provider_id) = some provider)
    (hps : provider.slot_id = slot_id) :
    (st.check_compatibility slot_id provider_id).compatible
      = (specVersionMatch slot.interface_version provider.interface_version
          && (specCapabilitiesMissing slot provider).isEmpty)
    ∧ (st.check_compatibility slot_id provider_id).version_match
      = specVersionMatch slot.interface_version provider.interface_version
    ∧ (st.check_compatibility slot_id provider_id).capabilities_missing
      = specCapabilitiesMissing slot provider := by
  have hpredeq : (fun c => !(provider.capabilities.contains c))
      = (fun c => decide (c ∉ provider.capabilities)) := by
    funext c
    by_cases hc : c ∈ provider.capabilities <;> simp [hc]
  have hmiss : slot.required_capabilities.filter (fun c => !(provider.capabilities.contains c))
      = specCapabilitiesMissing slot provider := by
    rw [specCapabilitiesMissing, hpredeq]
  simp only [SlotStore.check_compatibility, hs, hp]
  rw [if_neg (by simp [hps])]
  simp only [versionMatch_eq, hmiss]
  refine ⟨?_, ?_, ?_⟩ <;> first | rfl | trivial

/-- Witness for C5 at the container.runtime fixture. -/
theorem check_compatibility_matches_spec_witness :
    (G0.slots.check_compatibility "slot:container.runtime"
        "provider:container.runtime:podman").compatible
      = (specVersionMatch slotRuntime.interface_version provPodman.interface_version
          && (specCapabilitiesMissing slotRuntime provPodman).isEmpty)
    ∧ (G0.slots.check_compatibility "slot:container.runtime"
        "provider:container.runtime:podman").version_match
      = specVersionMatch slotRuntime.interface_version provPodman.interface_version
    ∧ (G0.slots.check_compatibility "slot:container.runtime"
        "provider:container.runtime:podman").capabilities_missing
      = specCapabilitiesMissing slotRuntime provPodman :=
  check_compatibility_matches_spec G0.slots "slot:container.runtime"
    "provider:container.runtime:podman" slotRuntime provPodman
    (by decide) (by decide) (by decide)

-- ===========================================================================
-- Claim C1 — executor re-check versus the §4.4 oracle
-- ===========================================================================

/-- C1 (amended): a SwitchBinding operation whose slot and target provider
exist in the slot store fails if and only if the slot's and provider's
`interface_version` options differ (strict option equality) or some required
capability is missing; whenever the provider belongs to the slot and both or
neither side declares an interface version, this coincides with the §4.4
oracle — but when exactly one side declares a version the executor fails on
version grounds even though the oracle's `version_match` is true. -/
theorem executor_switch_compat (e : Option String) (n : Nat) (g : EcosystemGraph)
    (bid cid sid fid tid : String) (rk : RiskLevel) (rsn : String)
    (slot : Slot) (provider : Provider)
    (hs : g.slots.slots.find? (fun s => s.id == sid) = some slot)
    (hp : g.slots.providers.find? (fun p => p.id == tid) = some provider) :
    ((execute_operation e n g (PlanOp.SwitchBinding bid cid sid fid tid rk rsn)).1 = none
      ↔ (slot.interface_version = provider.interface_version
          ∧ ∀ c ∈ slot.required_capabilities, c ∈ provider.capabilities))
    ∧ (provider.slot_id = sid →
        (slot.interface_version.isSome ↔ provider.interface_version.isSome) →
        (((execute_operation e n g (PlanOp.SwitchBinding bid cid sid fid tid rk rsn)).1 = none)
          ↔ (g.slots.check_compatibility sid tid).compatible = true)) := by
  have hcaps : ∀ caps : List String,
      (caps.find? (fun cap => !(provider.capabilities.contains cap)) = none
        ↔ ∀ c ∈ caps, c ∈ provider.capabilities) := by
    intro caps
    rw [List.find?_eq_none]
    constructor
    · intro h c hc
      have := h c hc
      simpa using this
    · intro h c hc
      simpa using h c hc
  have hmain : (execute_operation e n g
      (PlanOp.SwitchBinding bid cid sid fid tid rk rsn)).1 = none
      ↔ (slot.interface_version = provider.interface_version
          ∧ ∀ c ∈ slot.required_capabilities, c ∈ provider.capabilities) := by
    simp only [execute_operation, hp, hs]
    by_cases hv : slot.interface_version = provider.interface_version
    · rw [if_neg (by simp [hv])]
      rcases hfind : slot.required_capabilities.find?
          (fun cap => !(provider.capabilities.contains cap)) with _ | cap
      · simp only
        constructor
        · intro _
          exact ⟨hv, (hcaps slot.required_capabilities).mp hfind⟩
        · intro _
          trivial
      · simp only
        constructor
        · intro hcontra
          exact absurd hcontra (by simp)
        · rintro ⟨-, hall⟩
          have := (hcaps slot.required_capabilities).mpr hall
          rw [this] at hfind
          exact absurd hfind (by simp)
    · rw [if_pos (by simp [hv])]
      simp only
      constructor
      · intro hcontra
        exact absurd hcontra (by simp)
      · rintro ⟨hveq, -⟩
        exact absurd hveq hv
  refine ⟨hmain, fun hps hsome => ?_⟩
  rw [hmain]
  simp only [SlotStore.check_compatibility, hs, hp]
  rw [if_neg (by simp [hps])]
  simp only [versionMatch_eq]
  constructor
  · rintro ⟨hveq, hall⟩
    have h1 : specVersionMatch slot.interface_version provider.interface_version = true := by
      simp [specVersionMatch, hveq]
    have h2 : (slot.required_capabilities.filter
        (fun c => !(provider.capabilities.contains c))).isEmpty = true := by
      rw [List.isEmpty_iff, List.filter_eq_nil_iff]
      intro c hc
      simpa using hall c hc
    simp only [h1, h2, Bool.and_self]
  · intro hcompat
    simp only [Bool.and_eq_true] at hcompat
    have hall : ∀ c ∈ slot.required_capabilities, c ∈ provider.capabilities := by
      have := hcompat.2
      rw [List.isEmpty_iff, List.filter_eq_nil_iff] at this
      intro c hc
      simpa using this c hc
    refine ⟨?_, hall⟩
    have hvm := hcompat.1
    cases hsv : slot.interface_version with
    | none =>
      cases hpv : provider.interface_version with
      | none => rfl
      | some pv =>
        rw [hsv, hpv] at hsome
        simp at hsome
    | some sv =>
      cases hpv : provider.interface_version with
      | none =>
        rw [hsv, hpv] at hsome
        simp at hsome
      | some pv =>
        rw [hsv, hpv] at hvm
        simp only [specVersionMatch] at hvm
        simp only [Option.isSome_some, Bool.true_and] at hvm
        have : sv = pv := by
          by_contra hne
          simp [hne] at hvm
        rw [this]

/-- Counterexample to C1 as stated: when exactly one side declares an
interface version, the §4.4 oracle reports the pair compatible but the
executor fails the SwitchBinding operation (on version grounds). -/
theorem executor_switch_compat_counterexample :
    (G1.slots.check_compatibility "slot:container.runtime"
        "provider:container.runtime:nover").compatible = true
    ∧ (execute_operation none 0 G1 (PlanOp.SwitchBinding "x" "repo:gh:myorg/webapp"
        "slot:container.runtime" "provider:container.runtime:podman"
        "provider:container.runtime:nover" RiskLevel.Low "r")).1.isSome = true
    ∧ slotRuntime.interface_version.isSome = true
    ∧ provNover.interface_version.isSome = false := by
  refine ⟨by decide, by decide, by decide, by decide⟩

/-- Witness for C1 (amended) at the container.runtime fixture. -/
theorem executor_switch_compat_witness :
    ((execute_operation (some "alice") 5 G0 (PlanOp.SwitchBinding "x" "repo:gh:myorg/webapp"
        "slot:container.runtime" "provider:container.runtime:podman"
        "provider:container.runtime:cerro-torre" RiskLevel.Low "r")).1 = none
      ↔ (slotRuntime.interface_version = provCerro.interface_version
          ∧ ∀ c ∈ slotRuntime.required_capabilities, c ∈ provCerro.capabilities))
    ∧ (provCerro.slot_id = "slot:container.runtime" →
        (slotRuntime.interface_version.isSome ↔ provCerro.interface_version.isSome) →
        (((execute_operation (some "alice") 5 G0 (PlanOp.SwitchBinding "x" "repo:gh:myorg/webapp"
            "slot:container.runtime" "provider:container.runtime:podman"
            "provider:container.runtime:cerro-torre" RiskLevel.Low "r")).1 = none)
          ↔ (G0.slots.check_compatibility "slot:container.runtime"
              "provider:container.runtime:cerro-torre").compatible = true)) :=
  executor_switch_compat (some "alice") 5 G0 "x" "repo:gh:myorg/webapp"
    "slot:container.runtime" "provider:container.runtime:podman"
    "provider:container.runtime:cerro-torre" RiskLevel.Low "r" slotRuntime provCerro
    (by decide) (by decide)

-- ===========================================================================
-- Claim C6 — the post-apply health check
-- ===========================================================================

/-- Per-binding reading of the health check's two loops. -/
theorem binding_healthy_iff (st : SlotStore) (b : SlotBinding) :
    ((st.slots.any (fun s => s.id == b.slot_id) = true
        ∧ st.providers.any (fun p => p.id == b.provider_id) = true)
      ∧ version_trip st b = false)
      ↔ binding_healthy st b := by
  constructor
  · rintro ⟨⟨h1, h2⟩, h3⟩
    rw [List.any_eq_true] at h1 h2
    obtain ⟨s, hs, hsid⟩ := h1
    obtain ⟨pr, hpr, hprid⟩ := h2
    refine ⟨⟨s, hs, by simpa using hsid⟩, ⟨pr, hpr, by simpa using hprid⟩, ?_⟩
    intro slot provider hfs hfp
    rw [version_trip, hfs, hfp] at h3
    simpa using h3
  · rintro ⟨⟨s, hs, hsid⟩, ⟨pr, hpr, hprid⟩, hv⟩
    refine ⟨⟨?_, ?_⟩, ?_⟩
    · rw [List.any_eq_true]
      exact ⟨s, hs, by simpa using hsid⟩
    · rw [List.any_eq_true]
      exact ⟨pr, hpr, by simpa using hprid⟩
    · rw [version_trip]
      rcases hfs : st.slots.find? (fun s => s.id == b.slot_id) with _ | slot <;>
        rcases hfp : st.providers.find? (fun p => p.id == b.provider_id) with _ | prov <;>
        simp only [hfs, hfp]
      simpa using hv slot prov hfs hfp

/-- C6 (amended): the post-apply health check passes if and only if every
persisted binding's slot exists, its provider exists, and the found slot and
provider declare equal `interface_version` options (strict option equality);
required capabilities are not re-checked, so the test is weaker than the §4.4
oracle on capabilities and stricter on versions.  The health check is run
exactly when the apply result is Success and the skip flag is unset. -/
theorem health_check_characterisation :
    (∀ g : EcosystemGraph, run_health_check g = true
        ↔ ∀ b ∈ g.slots.bindings, binding_healthy g.slots b)
    ∧ (∀ (e : Option String) (n : Nat) (g : EcosystemGraph) (pid : String)
        (args : ApplyArgs) (out : ApplyOutcome),
        run_apply e n g (some pid) args = .ok (.executed out) →
        (out.health_check_passed.isSome
          ↔ (args.skip_health_check = false ∧ out.result = ApplyResult.Success))) := by
  constructor
  · intro g
    have hb1 : (fun (h : Bool) (b : SlotBinding) =>
        let h1 := if !(g.slots.slots.any (fun s => s.id == b.slot_id)) then false else h
        if !(g.slots.providers.any (fun p => p.id == b.provider_id)) then false else h1)
        = (fun (h : Bool) (b : SlotBinding) =>
            if (!(g.slots.slots.any (fun s => s.id == b.slot_id))
              || !(g.slots.providers.any (fun p => p.id == b.provider_id))) then false else h) := by
      funext h b
      cases h1 : g.slots.slots.any (fun s => s.id == b.slot_id) <;>
        cases h2 : g.slots.providers.any (fun p => p.id == b.provider_id) <;>
        simp [h1, h2]
    have hb2 : (fun (h : Bool) (b : SlotBinding) =>
        match g.slots.slots.find? (fun s => s.id == b.slot_id),
              g.slots.providers.find? (fun p => p.id == b.provider_id) with
        | some slot, some provider =>
          if slot.interface_version ≠ provider.interface_version then false else h
        | _, _ => h)
        = (fun (h : Bool) (b : SlotBinding) => if version_trip g.slots b then false else h) := by
      funext h b
      rw [version_trip]
      rcases hfs : g.slots.slots.find? (fun s => s.id == b.slot_id) with _ | slot <;>
        rcases hfp : g.slots.providers.find? (fun p => p.id == b.provider_id) with _ | prov <;>
        simp only [hfs, hfp] <;> simp
    rw [run_health_check, hb1, hb2, foldl_flag, foldl_flag]
    simp only [Bool.true_and, Bool.and_eq_true, List.all_eq_true]
    constructor
    · rintro ⟨hA, hB⟩ b hb
      have h1 := hA b hb
      have h2 := hB b hb
      rw [Bool.not_or] at h1
      simp only [Bool.and_eq_true, Bool.not_not] at h1
      rw [Bool.not_eq_true'] at h2
      exact (binding_healthy_iff g.slots b).mp ⟨⟨h1.1, h1.2⟩, h2⟩
    · intro hall
      constructor
      · intro b hb
        obtain ⟨⟨h1, h2⟩, -⟩ := (binding_healthy_iff g.slots b).mpr (hall b hb)
        rw [Bool.not_or]
        simp [h1, h2]
      · intro b hb
        obtain ⟨-, h3⟩ := (binding_healthy_iff g.slots b).mpr (hall b hb)
        simp [h3]
  · intro e n g pid args out hrun
    rcases hfind : g.plans.plans.find? (fun q => q.id == pid || q.name == pid) with _ | p
    · rw [run_apply, hfind] at hrun
      simp at hrun
    · obtain ⟨-, -, hout⟩ := run_apply_executed_cases e n g pid args p out hfind hrun
      subst hout
      simp only [run_apply_normal]
      rcases happ : apply_ops e n args.auto_rollback g p.operations 0 with ⟨opres, fi, ns, g1⟩
      rcases hph : apply_phase2 e n args.auto_rollback g1 p fi with ⟨rb, res, art, rpi, rn, g2⟩
      simp only
      by_cases hskip : args.skip_health_check = true <;>
        by_cases hres : res = ApplyResult.Success <;>
        simp [hskip, hres]

/-- Counterexample to C6 as stated: a persisted binding whose slot and
provider exist and agree on versions but lack a required capability — the
§4.4 oracle rejects the pair, yet the health check passes. -/
theorem health_check_counterexample :
    run_health_check G6 = true
    ∧ (G6.slots.check_compatibility "slot:container.rt2"
        "provider:container.rt2:docker").compatible = false
    ∧ bDocker ∈ G6.slots.bindings
    ∧ bDocker.slot_id = "slot:container.rt2"
    ∧ bDocker.provider_id = "provider:container.rt2:docker" := by
  refine ⟨by decide, by decide, by decide, by decide, by decide⟩

/-- Witness for C6 (amended) at the container.runtime fixture. -/
theorem health_check_characterisation_witness :
    (run_health_check G0 = true ↔ ∀ b ∈ G0.slots.bindings, binding_healthy G0.slots b)
    ∧ (applyOut0.health_check_passed.isSome
        ↔ (argsNormal.skip_health_check = false ∧ applyOut0.result = ApplyResult.Success)) :=
  ⟨health_check_characterisation.1 G0,
    health_check_characterisation.2 (some "alice") 5 G0 "plan:swap:1" argsNormal applyOut0
      (by rfl)⟩

-- ===========================================================================
-- Claim C4 — persistence atomicity
-- ===========================================================================

/-- C4 (amended): `EcosystemGraph::save` issues no rename at all and writes
each serialized document directly to its destination path, so the
write-temporary-then-rename atomicity property fails: a write interrupted
mid-way leaves a partially written document observable at the destination. -/
theorem save_trace_not_atomic (serG : GraphStore → String) (serA : AspectStore → String)
    (g : EcosystemGraph) (dir : String) :
    (∀ src dst, FsOp.Rename src dst ∉ save_trace serG serA g dir)
    ∧ FsOp.Write (dir ++ "/graph.json") (serG g.store) ∈ save_trace serG serA g dir
    ∧ FsOp.Write (dir ++ "/aspects.json") (serA g.aspects) ∈ save_trace serG serA g dir
    ∧ ¬ atomic_save_trace (save_trace serG serA g dir)
        [dir ++ "/graph.json", dir ++ "/aspects.json"] := by
  refine ⟨?_, ?_, ?_, ?_⟩
  · intro src dst hmem
    simp [save_trace] at hmem
  · simp [save_trace]
  · simp [save_trace]
  · rintro ⟨hw, -⟩
    have hmem : FsOp.Write (dir ++ "/graph.json") (serG g.store)
        ∈ save_trace serG serA g dir := by simp [save_trace]
    exact hw (dir ++ "/graph.json") (serG g.store) hmem (by simp)

/-- Counterexample to C4 as stated: at a concrete store and directory, the
save trace writes a destination path directly, violating the write-temp-then-
rename contract. -/
theorem save_trace_not_atomic_counterexample :
    ¬ atomic_save_trace (save_trace (fun _ => "g") (fun _ => "a") G0 "data")
      ["data" ++ "/graph.json", "data" ++ "/aspects.json"] := by
  rintro ⟨hw, -⟩
  have hmem : FsOp.Write ("data" ++ "/graph.json") "g"
      ∈ save_trace (fun _ => "g") (fun _ => "a") G0 "data" := by simp [save_trace]
  exact hw ("data" ++ "/graph.json") "g" hmem (by simp)

-- ===========================================================================
-- Claim C3 — apply then undo (P8 rollback correctness)
-- ===========================================================================

/-- C3 (amended): a successful apply of a plan (addressed by its id) followed
by a successful undo leaves the graph store and the aspect store exactly as
before, restores the plan store except that the applied plan's status ends as
Draft (and its `applied_at` as unset), and appends exactly two audit entries.
The slot store is in general NOT restored: the executor regenerates binding
ids (three-part format), modes (manual) and `created_by` — see the
counterexample. -/
theorem apply_undo_restores (e1 e2 : Option String) (n1 n2 : Nat) (g : EcosystemGraph)
    (pid : String) (a1 a2 : ApplyArgs) (p : Plan) (out : ApplyOutcome) (uout : UndoOutcome)
    (hfind : g.plans.plans.find? (fun q => q.id == pid || q.name == pid) = some p)
    (hpid : p.id = pid)
    (hrun : run_apply e1 n1 g (some pid) a1 = .ok (.executed out))
    (hres : out.result = ApplyResult.Success)
    (hundo : run_undo e2 n2 out.graph (some pid) a2 = .ok (.executed uout))
    (hures : uout.result = ApplyResult.Success) :
    uout.graph.store = g.store
    ∧ uout.graph.aspects = g.aspects
    ∧ uout.graph.plans.diffs = g.plans.diffs
    ∧ uout.graph.plans.plans = updateFirst (fun q => q.id == pid)
        (fun q => { q with status := PlanStatus.Draft, applied_at := none }) g.plans.plans
    ∧ ∃ ea eu, uout.graph.audit.entries = g.audit.entries ++ [ea, eu] := by
  obtain ⟨-, -, hout⟩ := run_apply_executed_cases e1 n1 g pid a1 p out hfind hrun
  subst hout
  -- dissect the apply: a Success result means no operation failed
  rcases happ : apply_ops e1 n1 a1.auto_rollback g p.operations 0 with ⟨opres, fi, ns, g1⟩
  have hfr1 := apply_ops_frame e1 n1 a1.auto_rollback p.operations g 0
  rw [happ] at hfr1
  simp only at hfr1
  have hfinone : fi = none := by
    rw [← apply_phase2_success_iff e1 n1 a1.auto_rollback g1 p fi]
    simp only [run_apply_normal] at hres
    rw [happ] at hres
    rcases hph : apply_phase2 e1 n1 a1.auto_rollback g1 p fi with ⟨rb, res, art, rpi, rn, g2⟩
    rw [hph] at hres
    exact hres
  subst hfinone
  -- characterise the post-apply graph
  have hOGplans : (run_apply_normal e1 n1 g p a1).graph.plans.plans
      = updateFirst (fun q => q.id == p.id)
          (fun q => { q with status := PlanStatus.Applied, applied_at := some n1 })
          g.plans.plans := by
    simp only [run_apply_normal]
    rw [happ]
    simp only [apply_phase2_none]
    simp only [hfr1.2.2.1]
    rfl
  have hOGdiffs : (run_apply_normal e1 n1 g p a1).graph.plans.diffs = g.plans.diffs := by
    simp only [run_apply_normal]
    rw [happ]
    simp only [apply_phase2_none]
    simp only [hfr1.2.2.1]
  have hOGstore : (run_apply_normal e1 n1 g p a1).graph.store = g.store := by
    simp only [run_apply_normal]
    rw [happ]
    simp only [apply_phase2_none]
    exact hfr1.1
  have hOGaspects : (run_apply_normal e1 n1 g p a1).graph.aspects = g.aspects := by
    simp only [run_apply_normal]
    rw [happ]
    simp only [apply_phase2_none]
    exact hfr1.2.1
  have hOGaudit : ∃ ea, (run_apply_normal e1 n1 g p a1).graph.audit.entries
      = g.audit.entries ++ [ea] := by
    simp only [run_apply_normal]
    rw [happ]
    simp only [apply_phase2_none]
    rw [hfr1.2.2.2.1]
    exact ⟨_, rfl⟩
  -- dissect the undo
  have hfind2 : (run_apply_normal e1 n1 g p a1).graph.plans.plans.find?
      (fun q => q.id == pid || q.name == pid)
      = some ({ p with status := PlanStatus.Applied, applied_at := some n1 }) := by
    rw [hOGplans]
    exact find?_updateFirst_plan g.plans.plans pid p
      (fun q => { q with status := PlanStatus.Applied, applied_at := some n1 })
      (fun q => rfl) (fun q => rfl) hfind hpid
  obtain ⟨-, -, huout⟩ := run_undo_executed_cases e2 n2
    ((run_apply_normal e1 n1 g p a1).graph) pid a2
    ({ p with status := PlanStatus.Applied, applied_at := some n1 }) uout hfind2 hundo
  subst huout
  rcases hru : apply_ops e2 n2 false ((run_apply_normal e1 n1 g p a1).graph)
      ((({ p with status := PlanStatus.Applied, applied_at := some n1 } : Plan).operations.reverse).filterMap
        reverse_operation) 0 with ⟨opres2, fi2, ns2, h1⟩
  have hfr2 := apply_ops_frame e2 n2 false
    ((({ p with status := PlanStatus.Applied, applied_at := some n1 } : Plan).operations.reverse).filterMap
      reverse_operation) ((run_apply_normal e1 n1 g p a1).graph) 0
  rw [hru] at hfr2
  simp only at hfr2
  have hfi2 : fi2 = none := by
    simp only [run_undo_normal] at hures
    rw [hru] at hures
    simp only at hures
    cases hcase : fi2 with
    | none => rfl
    | some j =>
      rw [hcase] at hures
      simp at hures
  subst hfi2
  -- characterise the post-undo graph and conclude
  simp only [run_undo_normal]
  rw [hru]
  simp only [Option.isSome_none, Bool.not_false, if_pos]
  refine ⟨?_, ?_, ?_, ?_, ?_⟩
  · exact hfr2.1.trans hOGstore
  · exact hfr2.2.1.trans hOGaspects
  · simp only [hfr2.2.2.1]
    exact hOGdiffs
  · simp only [hfr2.2.2.1]
    rw [hOGplans, hpid]
    rw [updateFirst_comp _ _ _ _ (fun x => by simp)]
  · obtain ⟨ea, hea⟩ := hOGaudit
    rw [hfr2.2.2.2.1, hea, List.append_assoc]
    exact ⟨ea, _, rfl⟩

/-- Counterexample to C3 as stated: after a fully successful apply and undo
of a reversible one-operation plan, the slot store differs from the pre-apply
state beyond timestamps and audit — the binding id, mode and `created_by`
have all changed. -/
theorem apply_undo_restores_counterexample :
    run_apply (some "alice") 5 G0 (some "plan:swap:1") argsNormal = .ok (.executed applyOut0)
    ∧ applyOut0.result = ApplyResult.Success
    ∧ run_undo (some "alice") 9 applyOut0.graph (some "plan:swap:1") argsNormal
      = .ok (.executed undoOut0)
    ∧ undoOut0.result = ApplyResult.Success
    ∧ planSwap.operations.all (fun op => (reverse_operation op).isSome) = true
    ∧ undoOut0.graph.slots.bindings.map (fun b => (b.id, b.mode, b.created_by))
      = [("binding:container.runtime:myorg/webapp:podman", BindingMode.Manual, "alice")]
    ∧ G0.slots.bindings.map (fun b => (b.id, b.mode, b.created_by))
      = [("binding:gh-myorg-webapp:container.runtime", BindingMode.Auto, "user")] := by
  refine ⟨by rfl, by decide, by rfl, by decide, by decide, by decide, by decide⟩

/-- Witness for C3 (amended) on the apply-undo pipeline over `G0`. -/
theorem apply_undo_restores_witness :
    undoOut0.graph.store = G0.store
    ∧ undoOut0.graph.aspects = G0.aspects
    ∧ undoOut0.graph.plans.diffs = G0.plans.diffs
    ∧ undoOut0.graph.plans.plans = updateFirst (fun q => q.id == "plan:swap:1")
        (fun q => { q with status := PlanStatus.Draft, applied_at := none }) G0.plans.plans
    ∧ ∃ ea eu, undoOut0.graph.audit.entries = G0.audit.entries ++ [ea, eu] :=
  apply_undo_restores (some "alice") (some "alice") 5 9 G0 "plan:swap:1" argsNormal
    argsNormal planSwap applyOut0 undoOut0 (by decide) (by decide) (by rfl) (by decide)
    (by rfl) (by decide)

-- ===========================================================================
-- Claim C2 — compensation set and order under auto-rollback
-- ===========================================================================

/-- C2 (amended): when the operation at index k fails during a normal apply
with auto-rollback enabled and the compensation succeeds (result
RolledBack), the compensating operations executed are exactly the reverses
of the reversible operations at indices 0 through k — the failed operation
itself included — in strict reverse order of original position. -/
theorem auto_rollback_compensation (e : Option String) (n : Nat) (g : EcosystemGraph)
    (pid : String) (args : ApplyArgs) (p : Plan) (out : ApplyOutcome) (k : Nat)
    (hfind : g.plans.plans.find? (fun q => q.id == pid || q.name == pid) = some p)
    (hrun : run_apply e n g (some pid) args = .ok (.executed out))
    (hk : (apply_ops e n args.auto_rollback g p.operations 0).2.1 = some k)
    (hres : out.result = ApplyResult.RolledBack) :
    args.auto_rollback = true
    ∧ out.rollback_attempted
        = ((p.operations.take (k + 1)).filterMap reverse_operation).reverse := by
  obtain ⟨-, -, hout⟩ := run_apply_executed_cases e n g pid args p out hfind hrun
  subst hout
  simp only [run_apply_normal] at hres ⊢
  rcases happ : apply_ops e n args.auto_rollback g p.operations 0 with ⟨opres, fi, ns, g1⟩
  rw [happ] at hres hk
  simp only at hk
  rcases hph : apply_phase2 e n args.auto_rollback g1 p fi with ⟨rb, res, art, rpi, rn, g2⟩
  rw [hph] at hres
  simp only at hres ⊢
  obtain ⟨k', tr, rid, g2', hfi, har, hexec, htr⟩ :=
    apply_phase2_rolledback e n args.auto_rollback g1 p fi (by rw [hph]; exact hres)
  have hke : k' = k := by
    rw [hfi] at hk
    injection hk
  rw [hph] at htr
  simp only at htr
  refine ⟨har, ?_⟩
  rw [htr, execute_rollback_ok_trace e n g1 p k' tr rid g2' hexec, rollback_ops_of,
    List.filterMap_reverse, hke]

/-- Counterexample to C2 as stated: in a one-operation plan whose single
operation fails at index 0 under auto-rollback, the already-successful
operations are none — the claim predicts no compensating operations — yet
the executor runs one compensating operation (the reverse of the failed
operation itself, `plan.operations[..=k]` being an inclusive slice). -/
theorem auto_rollback_compensation_counterexample :
    run_apply (some "alice") 5 Gghost (some "plan:ghost:1") argsRollback
      = .ok (.executed ghostOut)
    ∧ ghostOut.result = ApplyResult.RolledBack
    ∧ ghostOut.op_results.map (fun r => (r.op_index, r.success)) = [(0, false)]
    ∧ (planGhost.operations.take 0).filterMap reverse_operation = []
    ∧ ghostOut.rollback_attempted ≠ [] := by
  refine ⟨by rfl, by decide, by decide, by decide, by decide⟩

/-- Witness for C2 (amended) at the ghost fixture (failure at index 0). -/
theorem auto_rollback_compensation_witness :
    argsRollback.auto_rollback = true
    ∧ ghostOut.rollback_attempted
        = ((planGhost.operations.take (0 + 1)).filterMap reverse_operation).reverse :=
  auto_rollback_compensation (some "alice") 5 Gghost "plan:ghost:1" argsRollback planGhost
    ghostOut 0 (by decide) (by rfl) (by decide) (by decide)

-- ===========================================================================
-- Claim C10 — the binding bind command
-- ===========================================================================

/-- C10 (amended): a successful `binding bind` with an existing consumer, an
existing slot, and a provider of that slot compatible with it, removes
exactly the bindings whose id equals the canonical
`SlotBinding::generate_id(consumer, slot)` and appends one binding with that
id, the requested provider and mode manual — so afterwards exactly one
binding with the canonical id exists.  Bindings for the same (consumer, slot)
pair stored under a different id (such as apply-created ones) are NOT
replaced and survive alongside (see the counterexample). -/
theorem run_binding_bind_replaces_canonical (now : Nat) (g : EcosystemGraph)
    (consumer slot_arg provider_arg : String) (r : Repo) (sid pid : String)
    (provider : Provider)
    (hr : g.store.repos.find? (fun x => x.name == consumer || x.id == consumer) = some r)
    (hsid : sid = (if rustStartsWith slot_arg "slot:" then slot_arg else "slot:" ++ slot_arg))
    (hex : g.slots.slots.any (fun s => s.id == sid) = true)
    (hpres : (if rustStartsWith provider_arg "provider:" then Except.ok provider_arg
        else match g.slots.providers.find? (fun p => p.name == provider_arg) with
          | some p => Except.ok p.id
          | none => Except.error ("Provider not found: " ++ provider_arg))
        = Except.ok (pid : String))
    (hp : g.slots.providers.find? (fun p => p.id == pid) = some provider)
    (hps : provider.slot_id = sid)
    (hcompat : (g.slots.check_compatibility sid pid).compatible = true) :
    run_binding_bind now g consumer slot_arg provider_arg
      = .ok { g with slots := { g.slots with bindings :=
          (g.slots.bindings.filter (fun b => b.id ≠ SlotBinding.generate_id r.id sid))
          ++ [{ kind := "SlotBinding", id := SlotBinding.generate_id r.id sid,
                consumer_id := r.id, slot_id := sid, provider_id := pid,
                mode := BindingMode.Manual, created_at := now, created_by := "user" }] } }
    ∧ (((g.slots.bindings.filter (fun (b : SlotBinding) => b.id ≠ SlotBinding.generate_id r.id sid))
          ++ [({ kind := "SlotBinding", id := SlotBinding.generate_id r.id sid,
                 consumer_id := r.id, slot_id := sid, provider_id := pid,
                 mode := BindingMode.Manual, created_at := now,
                 created_by := "user" } : SlotBinding)]).filter
          (fun (b : SlotBinding) => b.id == SlotBinding.generate_id r.id sid)).length = 1 := by
  subst hsid
  constructor
  · simp only [run_binding_bind, hr]
    rw [hpres]
    simp only [hp]
    rw [if_neg (by simp [hex]), if_neg (by simp [hps]), if_neg (by simp [hcompat])]
  · rw [List.filter_append, filter_ne_then_eq]
    simp

/-- Counterexample to C10 as stated: a pre-existing binding for the same
(consumer, slot) pair stored under the executor's id format is not replaced
by `binding bind`; afterwards two bindings exist for the pair. -/
theorem run_binding_bind_counterexample :
    run_binding_bind 3 G10 "webapp" "container.runtime" "podman" = .ok G10'
    ∧ (G10'.slots.bindings.filter (fun b =>
        b.slot_id == "slot:container.runtime"
          && b.consumer_id == "repo:gh:myorg/webapp")).length = 2
    ∧ bForeign ∈ G10'.slots.bindings
    ∧ bForeign.slot_id = "slot:container.runtime"
    ∧ bForeign.consumer_id = "repo:gh:myorg/webapp" := by
  refine ⟨by rfl, by decide, by decide, by decide, by decide⟩

/-- Witness for C10 (amended): binding webapp's container.runtime to
cerro-torre on `G0` replaces the canonical binding `b0`. -/
theorem run_binding_bind_replaces_canonical_witness :
    run_binding_bind 7 G0 "webapp" "container.runtime" "cerro-torre"
      = .ok { G0 with slots := { G0.slots with bindings :=
          (G0.slots.bindings.filter (fun b => b.id ≠ SlotBinding.generate_id repoWebapp.id
            "slot:container.runtime"))
          ++ [{ kind := "SlotBinding",
                id := SlotBinding.generate_id repoWebapp.id "slot:container.runtime",
                consumer_id := repoWebapp.id, slot_id := "slot:container.runtime",
                provider_id := "provider:container.runtime:cerro-torre",
                mode := BindingMode.Manual, created_at := 7, created_by := "user" }] } }
    ∧ (((G0.slots.bindings.filter (fun (b : SlotBinding) =>
          b.id ≠ SlotBinding.generate_id repoWebapp.id "slot:container.runtime"))
          ++ [({ kind := "SlotBinding",
                 id := SlotBinding.generate_id repoWebapp.id "slot:container.runtime",
                 consumer_id := repoWebapp.id, slot_id := "slot:container.runtime",
                 provider_id := "provider:container.runtime:cerro-torre",
                 mode := BindingMode.Manual, created_at := 7,
                 created_by := "user" } : SlotBinding)]).filter
          (fun (b : SlotBinding) =>
            b.id == SlotBinding.generate_id repoWebapp.id "slot:container.runtime")).length
        = 1 :=
  run_binding_bind_replaces_canonical 7 G0 "webapp" "container.runtime" "cerro-torre"
    repoWebapp "slot:container.runtime" "provider:container.runtime:cerro-torre" provCerro
    (by decide) (by decide) (by decide) (by rfl) (by decide) (by decide) (by decide)

-- ===========================================================================
-- Claim C9 — per-op risk of derived SwitchBinding operations
-- ===========================================================================

/-- The source's risk assessment equals the spec's additive score put through
the spec's score-to-level map. -/
theorem assess_eq_spec (g : EcosystemGraph) (f t : Provider) :
    assess_binding_switch_risk g f t = spec_risk_of_score (spec_risk_score g f t) := by
  have hpred : (fun (a : AspectAnnotation) =>
      (a.target == f.id || a.target == t.id) && decide (a.polarity = Polarity.Risk))
      = (fun (a : AspectAnnotation) =>
          decide (a.polarity = Polarity.Risk ∧ (a.target = f.id ∨ a.target = t.id))) := by
    funext a
    by_cases h1 : a.target = f.id <;> by_cases h2 : a.target = t.id <;>
      by_cases h3 : a.polarity = Polarity.Risk <;> simp [h1, h2, h3]
  simp only [assess_binding_switch_risk, spec_risk_of_score, spec_risk_score]
  rw [foldl_cond_add, hpred]
  split_ifs <;> first | rfl | (exfalso; omega)

/-- C9: every operation emitted by plan derivation is a SwitchBinding from a
current binding's provider to a compatible, non-fallback, strictly
higher-priority alternative, and its risk is the spec's additive score —
+2 for local-to-external, +1 for a fallback target, +1 for differing
interface versions, plus the weight of every risk-polarity annotation
targeting either endpoint — mapped through 0→Low, 1→Medium, 2–3→High,
≥4→Critical. -/
theorem plan_derivation_risk (g : EcosystemGraph) (sid : String) (cs : Option ChangeSet)
    (op : PlanOp) (hop : op ∈ generate_plan_operations g sid cs) :
    ∃ binding provider alt,
      binding ∈ g.slots.bindings
      ∧ g.slots.providers.find? (fun p => p.id == binding.provider_id) = some provider
      ∧ alt ∈ g.slots.providers ∧ alt.slot_id = binding.slot_id
      ∧ alt.priority > provider.priority ∧ alt.is_fallback = false
      ∧ (g.slots.check_compatibility binding.slot_id alt.id).compatible = true
      ∧ op = PlanOp.SwitchBinding binding.id binding.consumer_id binding.slot_id
          binding.provider_id alt.id
          (spec_risk_of_score (spec_risk_score g provider alt))
          ("Higher priority provider available: " ++ alt.name ++ " (priority "
            ++ toString alt.priority ++ ") vs " ++ provider.name ++ " (priority "
            ++ toString provider.priority ++ ")") := by
  simp only [generate_plan_operations] at hop
  rw [List.mem_flatMap] at hop
  obtain ⟨binding, hb, hop⟩ := hop
  rcases hfp : g.slots.providers.find? (fun p => p.id == binding.provider_id) with _ | provider
  · rw [hfp] at hop
    simp at hop
  · rw [hfp] at hop
    simp only at hop
    rw [List.mem_filterMap] at hop
    obtain ⟨alt, halt, hsome⟩ := hop
    rw [List.mem_filter] at halt
    obtain ⟨haltmem, haltcond⟩ := halt
    by_cases h1 : (decide (alt.priority > provider.priority) && !alt.is_fallback) = true
    · rw [if_pos (by simpa using h1)] at hsome
      by_cases h2 : (g.slots.check_compatibility binding.slot_id alt.id).compatible = true
      · rw [if_pos h2] at hsome
        have hopeq := Option.some.inj hsome
        simp only [Bool.and_eq_true, decide_eq_true_eq] at h1
        simp only [Bool.and_eq_true, beq_iff_eq] at haltcond
        refine ⟨binding, provider, alt, hb, hfp, haltmem, haltcond.1, h1.1, ?_, h2, ?_⟩
        · simpa using h1.2
        · rw [← hopeq, assess_eq_spec]
      · rw [if_neg (by simpa using h2)] at hsome
        simp at hsome
    · rw [if_neg (by simpa using h1)] at hsome
      simp at hsome

/-- Witness for C9 at the fixture where derivation proposes switching webapp
from cerro-torre to podman (score 2 from the weight-2 risk annotation on
podman, hence High). -/
theorem plan_derivation_risk_witness :
    ∃ binding provider alt,
      binding ∈ G9.slots.bindings
      ∧ G9.slots.providers.find? (fun p => p.id == binding.provider_id) = some provider
      ∧ alt ∈ G9.slots.providers ∧ alt.slot_id = binding.slot_id
      ∧ alt.priority > provider.priority ∧ alt.is_fallback = false
      ∧ (G9.slots.check_compatibility binding.slot_id alt.id).compatible = true
      ∧ PlanOp.SwitchBinding "binding:gh-myorg-webapp:container.runtime"
          "repo:gh:myorg/webapp" "slot:container.runtime"
          "provider:container.runtime:cerro-torre" "provider:container.runtime:podman"
          RiskLevel.High
          "Higher priority provider available: podman (priority 100) vs cerro-torre (priority 50)"
        = PlanOp.SwitchBinding binding.id binding.consumer_id binding.slot_id
          binding.provider_id alt.id
          (spec_risk_of_score (spec_risk_score G9 provider alt))
          ("Higher priority provider available: " ++ alt.name ++ " (priority "
            ++ toString alt.priority ++ ") vs " ++ provider.name ++ " (priority "
            ++ toString provider.priority ++ ")") :=
  plan_derivation_risk G9 "scenario:swap" none
    (PlanOp.SwitchBinding "binding:gh-myorg-webapp:container.runtime"
      "repo:gh:myorg/webapp" "slot:container.runtime"
      "provider:container.runtime:cerro-torre" "provider:container.runtime:podman"
      RiskLevel.High
      "Higher priority provider available: podman (priority 100) vs cerro-torre (priority 50)")
    (by decide)

-- ===========================================================================
-- Claim C7 — one audit entry per apply
-- ===========================================================================

/-- C7 (amended): every non-dry-run apply invocation that passes the
preliminary checks — the plan is found and is not already applied — appends
exactly one audit entry, whatever happens to the operations; an invocation
that fails those checks returns an error before any audit entry is created
(see the counterexample). -/
theorem audit_entry_on_executed_apply (e : Option String) (n : Nat) (g : EcosystemGraph)
    (pid : String) (args : ApplyArgs) (p : Plan)
    (hfind : g.plans.plans.find? (fun q => q.id == pid || q.name == pid) = some p)
    (hst : p.status ≠ PlanStatus.Applied)
    (hdr : args.dry_run = false) :
    ∃ out entry, run_apply e n g (some pid) args = .ok (.executed out)
      ∧ out.graph.audit.entries = g.audit.entries ++ [entry] := by
  have hrun : run_apply e n g (some pid) args
      = .ok (.executed (run_apply_normal e n g p args)) := by
    simp only [run_apply, hfind]
    rw [if_neg hst, if_neg (by simp [hdr])]
  have hout : ∃ entry, (run_apply_normal e n g p args).graph.audit.entries
      = g.audit.entries ++ [entry] := by
    simp only [run_apply_normal]
    rcases happ : apply_ops e n args.auto_rollback g p.operations 0 with ⟨opres, fi, ns, g1⟩
    rcases hph : apply_phase2 e n args.auto_rollback g1 p fi with ⟨rb, res, art, rpi, rn, g2⟩
    simp only
    have hfr1 := apply_ops_frame e n args.auto_rollback p.operations g 0
    rw [happ] at hfr1
    have hfr2 := apply_phase2_frame e n args.auto_rollback g1 p fi
    rw [hph] at hfr2
    simp only at hfr1 hfr2
    rw [hfr2.2.2.2, hfr1.2.2.2.1]
    exact ⟨_, rfl⟩
  obtain ⟨entry, hent⟩ := hout
  exact ⟨run_apply_normal e n g p args, entry, hrun, hent⟩

/-- Counterexample to C7 as stated: a non-dry-run apply invocation naming a
plan that does not exist returns an error before any audit entry is created
or persisted — zero entries are appended, not one. -/
theorem audit_entry_counterexample :
    run_apply (some "u") 0 Gempty (some "nope") argsNormal = .error "Plan not found: nope"
    ∧ argsNormal.dry_run = false := by
  exact ⟨rfl, rfl⟩

/-- Witness for C7 (amended) at the container.runtime fixture. -/
theorem audit_entry_on_executed_apply_witness :
    ∃ out entry, run_apply (some "alice") 5 G0 (some "plan:swap:1") argsNormal
      = .ok (.executed out)
      ∧ out.graph.audit.entries = G0.audit.entries ++ [entry] :=
  audit_entry_on_executed_apply (some "alice") 5 G0 "plan:swap:1" argsNormal planSwap
    (by decide) (by decide) (by decide)

-- ===========================================================================
-- Claim C8 — the stored binding id scheme
-- ===========================================================================

/-- C8 (code bug): executing a CreateBinding operation through the
transactional executor stores a binding whose id is
`binding:<slot-short>:<consumer-short>:<provider-short>` — not the
`binding:<consumer-short>:<slot-short>` id documented on the `SlotBinding`
struct and produced by `SlotBinding::generate_id` (and used by the bind
command and by `PlanStore::generate_rollback` to address bindings). -/
theorem executor_binding_id_diverges :
    (execute_operation none 0 Gempty (PlanOp.CreateBinding "repo:gh:myorg/webapp"
        "slot:container.runtime" "provider:container.runtime:podman"
        RiskLevel.Low "x")).1 = none
    ∧ (execute_operation none 0 Gempty (PlanOp.CreateBinding "repo:gh:myorg/webapp"
        "slot:container.runtime" "provider:container.runtime:podman"
        RiskLevel.Low "x")).2.slots.bindings.map (fun b => b.id)
      = ["binding:container.runtime:myorg/webapp:podman"]
    ∧ SlotBinding.generate_id "repo:gh:myorg/webapp" "slot:container.runtime"
      = "binding:gh-myorg-webapp:container.runtime"
    ∧ ("binding:container.runtime:myorg/webapp:podman" : String)
      ≠ "binding:gh-myorg-webapp:container.runtime" := by
  refine ⟨by decide, by decide, by decide, by decide⟩

end Reposystem
